import Mathlib

/-!
Verification development for the res-bot repository (a Streamlit application
that reviews CUNY Board of Trustees resolutions via an OpenAI chat call).

The Python sources `app.py` and `resolution_reviewer.py` are shallowly
embedded below.  External effects (the filesystem, the docx parser, the
tiktoken encoder, the OpenAI endpoint and the JSON parser) are modelled as
explicit oracle parameters; Streamlit calls are modelled as a trace of UI
events; Python exceptions are modelled with `Except`/`Option`.
-/

set_option maxRecDepth 6000

namespace ResBot

/-! ## Generic list infrastructure: occurrence counting and splitting -/

/-- Number of positions at which `pat` occurs in a character list
(occurrences may overlap). -/
def countOcc (pat : List Char) : List Char → Nat
  | [] => 0
  | c :: rest => (if pat <+: (c :: rest) then 1 else 0) + countOcc pat rest

/-- No nonempty proper leading segment of `pat` ends the list `xs`; an
occurrence of `pat` in `xs ++ ys` therefore cannot start inside `xs` and
spill over into `ys`. -/
def LeftSafe (pat xs : List Char) : Prop :=
  ∀ k, k < pat.length → 0 < k → ¬ (pat.take k <:+ xs)

instance (pat xs : List Char) : Decidable (LeftSafe pat xs) :=
  inferInstanceAs (Decidable (∀ k, k < pat.length → 0 < k → ¬ (pat.take k <:+ xs)))

/-- No nonempty proper trailing segment of `pat` starts the list `ys`; an
occurrence of `pat` in `xs ++ ys` therefore cannot start inside `xs` and
spill over into `ys`. -/
def RightSafe (pat ys : List Char) : Prop :=
  ∀ k, k < pat.length → 0 < k → ¬ (pat.drop k <+: ys)

instance (pat ys : List Char) : Decidable (RightSafe pat ys) :=
  inferInstanceAs (Decidable (∀ k, k < pat.length → 0 < k → ¬ (pat.drop k <+: ys)))

lemma countOcc_append_of_leftSafe (pat xs ys : List Char)
    (h : LeftSafe pat xs) :
    countOcc pat (xs ++ ys) = countOcc pat xs + countOcc pat ys := by
  induction xs with
  | nil => simp [countOcc]
  | cons x xs ih =>
    have hsub : LeftSafe pat xs := by
      intro k hk hk0 hsuf
      exact h k hk hk0 (hsuf.trans (List.suffix_cons x xs))
    have hiff : (pat <+: x :: (xs ++ ys)) ↔ (pat <+: x :: xs) := by
      constructor
      · intro hp
        by_cases hlen : pat.length ≤ (x :: xs).length
        · have h1 := List.prefix_iff_eq_take.mp hp
          have h2 : ((x :: xs) ++ ys).take pat.length = (x :: xs).take pat.length :=
            List.take_append_of_le_length hlen
          rw [List.cons_append] at h2
          rw [h1, h2]
          exact List.take_prefix pat.length (x :: xs)
        · push_neg at hlen
          have hpre : (x :: xs) <+: x :: (xs ++ ys) := by
            have := List.prefix_append (x :: xs) ys
            rwa [List.cons_append] at this
          have hxp : (x :: xs) <+: pat :=
            List.prefix_of_prefix_length_le hpre hp (Nat.le_of_lt hlen)
          have htake : pat.take (x :: xs).length = x :: xs :=
            (List.prefix_iff_eq_take.mp hxp).symm
          exact absurd (htake.symm ▸ List.suffix_refl (x :: xs))
            (h (x :: xs).length hlen (Nat.succ_pos _))
      · intro hp
        have := hp.trans (List.prefix_append (x :: xs) ys)
        rwa [List.cons_append] at this
    rw [List.cons_append, countOcc, countOcc, ih hsub]
    simp only [hiff]
    omega

lemma countOcc_append_of_rightSafe (pat xs ys : List Char)
    (h : RightSafe pat ys) :
    countOcc pat (xs ++ ys) = countOcc pat xs + countOcc pat ys := by
  induction xs with
  | nil => simp [countOcc]
  | cons x xs ih =>
    have hiff : (pat <+: x :: (xs ++ ys)) ↔ (pat <+: x :: xs) := by
      constructor
      · intro hp
        by_cases hlen : pat.length ≤ (x :: xs).length
        · have h1 := List.prefix_iff_eq_take.mp hp
          have h2 : ((x :: xs) ++ ys).take pat.length = (x :: xs).take pat.length :=
            List.take_append_of_le_length hlen
          rw [List.cons_append] at h2
          rw [h1, h2]
          exact List.take_prefix pat.length (x :: xs)
        · push_neg at hlen
          have hpre : (x :: xs) <+: x :: (xs ++ ys) := by
            have := List.prefix_append (x :: xs) ys
            rwa [List.cons_append] at this
          have hxp : (x :: xs) <+: pat :=
            List.prefix_of_prefix_length_le hpre hp (Nat.le_of_lt hlen)
          have hsplit : pat = (x :: xs) ++ pat.drop (x :: xs).length := by
            have h1 := List.prefix_iff_eq_take.mp hxp
            conv_lhs => rw [← List.take_append_drop (x :: xs).length pat]
            rw [← h1]
          have hp' : (x :: xs) ++ pat.drop (x :: xs).length <+: (x :: xs) ++ ys := by
            rw [← hsplit, List.cons_append]
            exact hp
          have hdp : pat.drop (x :: xs).length <+: ys :=
            (List.prefix_append_right_inj (x :: xs)).mp hp'
          exact absurd hdp (h (x :: xs).length hlen (Nat.succ_pos _))
      · intro hp
        have := hp.trans (List.prefix_append (x :: xs) ys)
        rwa [List.cons_append] at this
    rw [List.cons_append, countOcc, countOcc, ih]
    simp only [hiff]
    omega

/-- Chain form of `countOcc_append_of_leftSafe`, convenient for peeling a
long concatenation one safe piece at a time. -/
lemma countOcc_chainL (pat xs ys : List Char) (n m : Nat)
    (hL : LeftSafe pat xs)
    (hxs : countOcc pat xs = n) (hys : countOcc pat ys = m) :
    countOcc pat (xs ++ ys) = n + m := by
  rw [countOcc_append_of_leftSafe pat xs ys hL, hxs, hys]

/-- Chain form of `countOcc_append_of_rightSafe`. -/
lemma countOcc_chainR (pat xs ys : List Char) (n m : Nat)
    (hR : RightSafe pat ys)
    (hxs : countOcc pat xs = n) (hys : countOcc pat ys = m) :
    countOcc pat (xs ++ ys) = n + m := by
  rw [countOcc_append_of_rightSafe pat xs ys hR, hxs, hys]


/-! ## String constants from `src/resolution_reviewer.py`

The long literals are transcribed verbatim from the Python source.  The
three example texts are assembled from chunked literals (content identical
to the source literal, split only so that kernel evaluation stays shallow);
`seg1`–`seg5` are the five literal segments of the f-string in
`_build_user_prompt`, in order, with the document text and the hardcoded
examples interpolated between them. -/

/-- verbatim from `src/resolution_reviewer.py` -/
def system_prompt_text : String :=
  "You are an expert reviewer of CUNY Board of Trustees resolutions. Your task is to analyze resolutions for compliance with the template and rules below.\n\nFor each violation found, you must:\n1. Identify the specific rule or template requirement that was violated\n2. Explain the error clearly\n3. Provide the exact line where the error occurs. If a WHEREAS clause doesn\x27t address a specific point that it is supposed to, then provide the number of that clause.\n4. Suggest how to fix it\n\nTEMPLATE STRUCTURE:\n1. The resolution must follow this exact structure:\n   - First line: \"Board of Trustees of The City University of New York\"\n   - Next line: \"RESOLUTION TO\"\n   - Next line: \"Establish a [Degree Level Program] in [Subject] at [College Name]\"\n   - Next line: [Date of Board of Trustees\x27 committee meeting]. Date must be in format \"Month DD, YYYY\"\n   - WHEREAS clauses\n   - \x27NOW THEREFORE BE IT\x27\n   - RESOLVED clause\n   - EXPLANATION part\n\n2. WHEREAS Clauses Requirements:\n   - Each WHEREAS clause, must address specific points, individually and in order:\n     1. Why the CUNY and market needs this program\n     2. How the program curriculum and credits are designed to meet the needs of the CUNY and market\n     3. Current student interest in the program\n     4. Transferability of the program courses\n     5. Benefits to students served and benefits to the CUNY and market\n     6. Projected enrollment, retention, and graduation in the first 3 to 5 years\n     7. Financial sustainability of the program given demand, section size, and current staffing, and projected revenue through enrollment to cover all operating costs in the first year\n     8. Program investments during the initial growth period; include any space/equipment needs, renovations, staff and faculty hiring (list number of Part and Full Time Faculty), as indicated, and identify the sources of funds for each.\n   - If a clause doesn\x27t address a specific point that it is supposed to in a clear manner, then it is a violation and you must provide the number of that clause, and the specific point it doesn\x27t address, along with the suggested fix.\n   - All the specific points must be addressed in a clear and concise manner. If not, then it is a violation and you must provide the point that is missing, and suggest/write a WHEREAS clause that addresses it.\n   - Each clause must end with \"; and\" except the last one which ends with a period\n   - Each clause must be a single statement without any full-stops. Internal periods, like commas, are allowed.\n\n3. RESOLVED Clause Requirements:\n   - The RESOLVED clause must state the aim of the resolution succinctly\n   - The RESOLVED clause must be a single statement with only 1 full-stop. Internal periods, like commas, are allowed.\n\n4. EXPLANATION Requirements:\n   - The EXPLANATION part must briefly summarize the purpose and benefits of the resolution.\n\n5. Resolution Structure Rules:\n   - Must include \"NOW, THEREFORE, BE IT\" after the last WHEREAS clause\n   - Must have exactly one RESOLVED clause\n   - Must include EXPLANATION section after RESOLVED clause\n\nFORMATTING RULES:\n1. Clause Formatting:\n   - WHEREAS clauses must start with \"WHEREAS,\"\n   - Only one full-stop allowed across all WHEREAS clause (except the last WHEREAS clause)\n   - \"; and\" required at end of all WHEREAS clauses except the last\n   - RESOLVED clause must start with \"RESOLVED,\"\n   - RESOLVED clause must come after \"NOW, THEREFORE, BE IT\"\n   - EXPLANATION part must start with \"EXPLANATION:\"\n   - EXPLANATION must come after RESOLVED clause\n\nProvide your analysis in the following JSON format:\n\x7b\n    \"template_violations\": [\n        \x7b\n            \"rule\": \"string - the specific rule violated\",\n            \"location\": \"string - where in the document\" OR \"#clause that violates a rule - the number of the clause violated - the specific point it doesn\x27t address\",\n            \"description\": \"string - clear explanation of the violation\",\n            \"suggestion\": \"string - how to fix it\"\n        \x7d\n    ],\n    \"formatting_violations\": [\n        \x7b\n            \"rule\": \"string - the specific rule violated\",\n            \"location\": \"string - where in the document\",\n            \"description\": \"string - clear explanation of the violation\",\n            \"suggestion\": \"string - how to fix it\"\n        \x7d\n    ],\n    \"overall_assessment\": \"string - brief summary of the resolution\x27s compliance\"\n\x7d\n"

/-- chunk 1 of the `ex_original` literal in `_get_examples` -/
def exOc1 : String :=
  "\n        Board of Trustees of the City University of New York\n\n        RESOLUTION TO\n\n        Establish a Bachelor of Arts in Data Analytics at Brooklyn College\n\n        February 28, 2025\n\n        WHEREAS, Knowledge of data practices, ranging from programming to statistics to data story-telling and visualization, is in high demand in the contemporary labor market, according to the US Department of Labor, with expected growth in New York State between 10% and 43% over the next ten years; and\n\n        WHEREAS, The typical approach to undergraduate programs in the field (including data analytics in various forms as well as data science) has tend"

/-- chunk 2 of the `ex_original` literal in `_get_examples` -/
def exOc2 : String :=
  "ed to stress technical skills. Much less attention has been paid in undergraduate programs to a broad perspective\u2014data practices in society, or the \"data landscape\"\u2014and the integration of data skills and training in contexts, organizations, and communities; and\n\n        WHEREAS, Brooklyn College is proposing the establishment of a Bachelor of Arts (\"BA\") program in Data Analytics, organized around the idea of data acumen, or the ability to make creative, sound judgments and decisions with data. This approach requires a solid foundation in data skills, such as programming in Python, statistics and probability, and data visualization. But it go"

/-- chunk 3 of the `ex_original` literal in `_get_examples` -/
def exOc3 : String :=
  "es beyond this foundation by bringing to bear deep knowledge of communication and contexts from the social and behavioral sciences, and;\n\n        WHEREAS, The proposed 58- to 72.5-credit Bachelor of Arts program tracks to capture a diverse population of students across the behavioral, natural, and social sciences. The first track is for social and behavioral science or humanities students who are interested in careers in data analytics. Students in this track take statistics and data analysis courses in the department of Management, Marketing, and Entrepreneurship, Economics, Psychology, or Sociology. The second track is intended for STEM stu"

/-- chunk 4 of the `ex_original` literal in `_get_examples` -/
def exOc4 : String :=
  "dents who are interested in more mathematics-oriented careers in data science; and\n\n        WHEREAS, The proposed Bachelor of Arts program will be housed in the School of Natural and Behavioral Sciences with participation of the Departments of Computer and Informational Science, Mathematics, Economics, Management, Marketing and Entrepreneurship, Psychology, Sociology, and Communication Arts, Sciences and Disorders; and\n\n        WHEREAS, Students completing the program will acquire the knowledge and skills necessary for career advancement in areas of data management, data analytics, data visualization, and data communications in a variety of e"

/-- chunk 5 of the `ex_original` literal in `_get_examples` -/
def exOc5 : String :=
  "mployment settings; and\n\n        WHEREAS, The proposed Bachelor of Arts program has an articulation agreement with the Associate of Science program in data science at Borough of Manhattan Community College. Further, possible connections with other University programs at the undergraduate and graduate levels, as well as programs of the City of New York to promote data careers, ensures a reliable pipeline of students into the professions; and\n\n        WHEREAS, The predicted enrollment and retention of students in the BA in Data Analytics, based on existing student interest as well as substantial and expanding market demand for graduates with th"

/-- chunk 6 of the `ex_original` literal in `_get_examples` -/
def exOc6 : String :=
  "is qualification, is expected to generate robust growth. The program will increase revenue while containing costs through the use of existing faculty, curriculum, and college resources; and\n\n        NOW, THEREFORE, BE IT\n\n        RESOLVED, That the Board of Trustees of the City University of New York\n        authorizes the proposed program in Data Analytics leading to the Bachelor of Arts degree at Brooklyn College be presented to the New York State Education Department for their consideration and registration in accordance with any and all regulations of the New York State Department of Education (\"NYSED\") for their consideration and registr"

/-- chunk 7 of the `ex_original` literal in `_get_examples` -/
def exOc7 : String :=
  "ation in accordance with any and all of NYSED\x27s regulations, subject to financial ability. \n\n        EXPLANATION: The proposed program will build upon a strong foundation in data analysis and quantitative methods, drawing on existing faculty expertise across three schools at Brooklyn College. It will serve The City University of New York\x27s mission to prepare its diverse population of students for the future of work in data careers. It will allow students to develop the necessary skills for academic and professional advancement in this fast-growing area while ensuring equity and access to this vital professional field.\n        "

/-- the `ex_original` string literal of `_get_examples` in `src/resolution_reviewer.py`, assembled from its chunks -/
def ex_original_text : String :=
  exOc1 ++ exOc2 ++ exOc3 ++ exOc4 ++ exOc5 ++ exOc6 ++ exOc7

/-- chunk 1 of the `ex_modified` literal in `_get_examples` -/
def exMc1 : String :=
  "\n        Board of Trustees of the City University of New York\n\n        RESOLUTION TO\n\n        Establish a Bachelor of Arts in Data Analytics at Brooklyn College\n\n        February 28, 2025\n\n        WHEREAS, In the contemporary labor market, knowledge of data practices, everything from programming to statistics to data story-telling and visualization, is in high demand, according to the US Department of Labor, with expected growth in New York State between 10% and 43% over the next ten years; and\n\n        WHEREAS, The typical approach to undergraduate programs in the field (including data analytics in various forms as well as data science) has "

/-- chunk 2 of the `ex_modified` literal in `_get_examples` -/
def exMc2 : String :=
  "tended to stress technical skills with less attention focusing on designing undergraduate programs that take a broad perspective\u2014data practices in society, or the \"data landscape\"\u2014and the integration of data skills and training in contexts, organizations, and communities; and\n\n        WHEREAS, Brooklyn College is proposing the establishment of a Bachelor of Arts (\"BA\") program in Data Analytics, organized around the idea of data acumen, or the ability to make creative, sound judgments and decisions with data taking an approach requires a solid foundation in data skills, such as programming in Python, statistics and probability, and data visua"

/-- chunk 3 of the `ex_modified` literal in `_get_examples` -/
def exMc3 : String :=
  "lization but also goes beyond this foundation by bringing to bear deep knowledge of communication and contexts from the social and behavioral sciences, and;\n\n        WHEREAS, The proposed 58- to 72.5-credit Bachelor of Arts program provides students with the capability to acquire knowledge and skills necessary for career development in areas of data management, data analytics, data visualization, and data communications in a variety of employment settings make possible though the inclusion of two tracks capturing a diverse population of students with the first track targeting social and behavioral science or humanities students who are intere"

/-- chunk 4 of the `ex_modified` literal in `_get_examples` -/
def exMc4 : String :=
  "sted in careers in data analytics with them completing courses in statistics and data analysis and the second track targeting STEM students who are interested in more mathematics-oriented careers in data science; and\n\n        WHEREAS, The proposed Bachelor of Arts program is interdisciplinary being housed in the School of Natural and Behavioral Sciences and in partnership with the Departments of Computer and Informational Science, Mathematics, Economics, Management, Marketing and Entrepreneurship, Psychology, Sociology, and Communication Arts, Sciences and Disorders; and\n\n        WHEREAS, The proposed Bachelor of Arts program has an articulat"

/-- chunk 5 of the `ex_modified` literal in `_get_examples` -/
def exMc5 : String :=
  "ion agreement with the Associate of Science program in data science at Borough of Manhattan Community College with possible connections with other University programs at the undergraduate and graduate levels, as well as programs of the City of New York to promote data careers, ensuring a reliable pipeline of students into the professions; and\n\n        WHEREAS, The predicted enrollment and retention of students in the Bachelor of Arts in Data Analytics, based on existing student interest as well as substantial and expanding market demand for graduates with this qualification, is expected to generate robust growth and the program will increase "

/-- chunk 6 of the `ex_modified` literal in `_get_examples` -/
def exMc6 : String :=
  "revenue while containing costs through the use of existing faculty, curricula, and college resources.\n\n        NOW, THEREFORE, BE IT\n\n        RESOLVED, That the Board of Trustees of the City University of New York\n        authorizes the proposed program in Data Analytics leading to the Bachelor of Arts degree at Brooklyn College be presented to the New York State Education Department for their consideration and registration in accordance with any and all regulations of the New York State Department of Education (\"NYSED\") for their consideration and registration in accordance with any and all of NYSED\x27s regulations, subject to financial abilit"

/-- chunk 7 of the `ex_modified` literal in `_get_examples` -/
def exMc7 : String :=
  "y. \n\n        EXPLANATION: The proposed program will build upon a strong foundation in data analysis and quantitative methods, drawing on existing faculty expertise across three schools at Brooklyn College. It will serve The City University of New York\x27s mission to prepare its diverse population of students for the future of work in data careers as well as help fill the growing market demand for professionals with the skills and background in diverse data practices. It will allow students to develop the necessary skills for academic and professional advancement in this fast-growing area while ensuring equity and access to this vital profession"

/-- chunk 8 of the `ex_modified` literal in `_get_examples` -/
def exMc8 : String :=
  "al field by targeting students across a range of disciplinary backgrounds from humanities to social sciences to STEM.\n        "

/-- the `ex_modified` string literal of `_get_examples` in `src/resolution_reviewer.py`, assembled from its chunks -/
def ex_modified_text : String :=
  exMc1 ++ exMc2 ++ exMc3 ++ exMc4 ++ exMc5 ++ exMc6 ++ exMc7 ++ exMc8

/-- chunk 1 of the `changes` literal in `_get_examples` -/
def chgc1 : String :=
  "\n\n        In the first \x27WHEREAS\x27 clause, the positiong of the phrase \x27In the contemporary labor market,\x27 is changed, inserting it first instead of writing it last, removing \x27K\x27. \x27everything\x27 is replaced with \x27ranging\x27.\n\n        In the second \x27WHEREAS\x27 clause, there is a period (full-stop), violating a rule. So \x27Much\x27 has been replaced by \x27with\x27. \x27has been paid\x27 has been replaced with \x27focusing on designing\x27. \x27to a\x27 has been replaced with \x27that take a\x27.\n\n        In the third \x27WHEREAS\x27 clause, there are periods (full-stop), that violates a rule. So \x27with data. This\x27 is replaced with \x27with data taking an\x27. \x27that\x27 is added for proper sentence str"

/-- chunk 2 of the `changes` literal in `_get_examples` -/
def chgc2 : String :=
  "uctuing. \x27data visualization. But it\x27 is replaced with \x27data visualization but also\x27.\n\n        In the fourth \x27WHEREAS\x27 clause, there are periods (full-stop), that violates a rule. The paragraph is also formatted properly. The text \x27provides students with the capability to acquire knowledge and skills necessary for career development in areas of data management, data analytics, data visualization, and data communications in a variety of employment settings make possible though the inclusion of\x27 is the sixth \x27WHEREAS\x27 claues in the original, but is inserted at the beginning of this clause. Multiple grammatical and syntactic changes are also mad"

/-- chunk 3 of the `changes` literal in `_get_examples` -/
def chgc3 : String :=
  "e.\n\n        In the fifth \x27WHEREAS\x27 clause, certain formatting is done, both grammatical and syntactic.\n\n        The sixth \x27WHEREAS\x27 clause is completely removed, and inserted in the beginning of the fourth \x27WHEREAS\x27 clause.\n\n        The seventh \x27WHEREAS\x27 clause has a period (full-stop) that is dealt with accordingly, keeping the rest of the content same.\n\n        The eight \x27WHEREAS\x27 clause has a period (full-stop) and it ends with \x27; and\x27 which are violations. Minor grammatical changes are done. Also, the full-form of \x27BA\x27 instead of the abbreviation is also done, indicating professionalism of the resolution.\n\n        The \x27NOW, THEREFORE, BE "

/-- chunk 4 of the `changes` literal in `_get_examples` -/
def chgc4 : String :=
  "IT\x27 is correct.\n\n        The \x27RESOLVED,\x27 clause is also correct.\n\n        In the \x27EXPLANATION\x27 part, two sentences are added at the end, which are \x27as well as help fill the growing market demand for professionals with the skills and background in diverse data practices\x27 and \x27 by targeting students across a range of disciplinary backgrounds from humanities to social sciences to STEM\x27.\n        \n        SUMMARY:- Overall there are multiple modifications needed in the original version, including grammatical and syntactic changes. Certain rules are violated, which are handled accordingly. In general, the original resolution broadly talks in accord"

/-- chunk 5 of the `changes` literal in `_get_examples` -/
def chgc5 : String :=
  "ance with the template rules and address the points in order.\n        "

/-- the `changes` string literal of `_get_examples` in `src/resolution_reviewer.py`, assembled from its chunks -/
def changes_text : String :=
  chgc1 ++ chgc2 ++ chgc3 ++ chgc4 ++ chgc5

/-- literal segment 1 of the f-string in `_build_user_prompt` -/
def seg1 : String :=
  "\n        Your task is to analyze a draft resolution for compliance with the template and rules. \n        An example of a draft resolution is given below, and the suggested corrections. \n        The incorrect resolution is given below, followed by the updated version of that resolution. \n        The changes that were made and the rules violated are given after the updated version.\n        <EXAMPLE START>\n        ORIGINAL VERSION:-\n        "

/-- literal segment 2 of the f-string in `_build_user_prompt` -/
def seg2 : String :=
  "\n        ----------------\n        MODIFIED VERSION:-\n        "

/-- literal segment 3 of the f-string in `_build_user_prompt` -/
def seg3 : String :=
  "\n        ----------------\n        ORIGINAL VERSION:-\n        "

/-- literal segment 4 of the f-string in `_build_user_prompt` -/
def seg4 : String :=
  "\n        ----------------\n        <EXAMPLE END>\n        \n        Based on the template provided, alonside the rules that may or may not be violated, please analyze the following resolution for compliance with the template and rules:\n        "

/-- literal segment 5 of the f-string in `_build_user_prompt` -/
def seg5 : String :=
  "\n\n        Provide a detailed analysis identifying any violations of the template or rules."

/-- part of segment 1 before its ORIGINAL VERSION heading -/
def seg1a : String :=
  "\n        Your task is to analyze a draft resolution for compliance with the template and rules. \n        An example of a draft resolution is given below, and the suggested corrections. \n        The incorrect resolution is given below, followed by the updated version of that resolution. \n        The changes that were made and the rules violated are given after the updated version.\n        <EXAMPLE START>\n        "

/-- part of segment 1 after its ORIGINAL VERSION heading -/
def seg1b : String :=
  "\n        "

/-- part of segment 2 before its MODIFIED VERSION heading -/
def seg2a : String :=
  "\n        ----------------\n        "

/-- part of segment 2 after its MODIFIED VERSION heading -/
def seg2b : String :=
  "\n        "

/-- part of segment 3 before its second ORIGINAL VERSION heading -/
def seg3a : String :=
  "\n        ----------------\n        "

/-- part of segment 3 after its second ORIGINAL VERSION heading -/
def seg3b : String :=
  "\n        "

/-- part of segment 4 before the EXAMPLE END marker -/
def seg4a : String :=
  "\n        ----------------\n        "

/-- part of segment 4 after the EXAMPLE END marker -/
def seg4b : String :=
  "\n        \n        Based on the template provided, alonside the rules that may or may not be violated, please analyze the following resolution for compliance with the template and rules:\n        "

/-- the repeated heading labelling the example original resolution (and,
mislabeled, the example changelog) in the user prompt -/
def hOriginal : String := "ORIGINAL VERSION:-"

/-- the heading labelling the example corrected resolution in the user prompt -/
def hModified : String := "MODIFIED VERSION:-"

/-- a heading naming the changes, which never occurs in the user prompt -/
def hChanges : String := "CHANGES"


/-! ## Model of Python values and exceptions

`json.loads` produces Python objects; the app then subscripts, truth-tests
and iterates them.  `PyVal` models such objects, `PyExc` models the Python
exceptions the app can raise during a review interaction. -/

inductive PyVal where
  | none
  | bool (b : Bool)
  | num (n : Int)
  | str (s : String)
  | list (xs : List PyVal)
  | dict (entries : List (String × PyVal))
deriving Repr

inductive PyExc where
  /-- `KeyError` raised by `d[k]` on a dict missing `k` -/
  | keyError (k : String)
  /-- `TypeError` raised by subscripting / iterating an unsuitable object -/
  | typeError (msg : String)
  /-- any exception raised by the OpenAI client call -/
  | apiError (reason : String)
  /-- `json.JSONDecodeError` raised by `json.loads` on invalid JSON -/
  | jsonDecodeError
  /-- exception raised by `Document(path)` on a missing or unparseable file -/
  | docReadError
deriving Repr, DecidableEq

/-- rendering of an exception as in Python `str(e)` (the exact text is
irrelevant to every claim; only which event is emitted matters) -/
def pyExcStr : PyExc → String
  | .keyError k => "\x27" ++ k ++ "\x27"
  | .typeError msg => msg
  | .apiError reason => reason
  | .jsonDecodeError => "Expecting value"
  | .docReadError => "Package not found"

/-- Python `d[key]` for the objects the app subscripts with a string key. -/
def pyGetItem (v : PyVal) (key : String) : Except PyExc PyVal :=
  match v with
  | .dict entries =>
    match entries.lookup key with
    | some w => .ok w
    | Option.none => .error (.keyError key)
  | .str _ => .error (.typeError "string indices must be integers")
  | .list _ => .error (.typeError "list indices must be integers")
  | _ => .error (.typeError "object is not subscriptable")

/-- Python truthiness, as used by `if results[...]:`. -/
def pyTruthy : PyVal → Bool
  | .none => false
  | .bool b => b
  | .num n => n != 0
  | .str s => !s.isEmpty
  | .list xs => !xs.isEmpty
  | .dict es => !es.isEmpty

/-- Python iteration, as used by `for violation in results[...]:`. -/
def pyIter : PyVal → Except PyExc (List PyVal)
  | .list xs => .ok xs
  | .str s => .ok (s.data.map fun c => .str (String.singleton c))
  | .dict es => .ok (es.map fun kv => .str kv.1)
  | _ => .error (.typeError "object is not iterable")

/-- shallow rendering of a value into an f-string (exact text of container
renderings is irrelevant to every claim) -/
def pyStr : PyVal → String
  | .none => "None"
  | .bool b => if b then "True" else "False"
  | .num n => toString n
  | .str s => s
  | .list _ => "<list>"
  | .dict _ => "<dict>"

/-! ## Model of the external world

Uploaded bytes, the filesystem, the docx parser, the tiktoken encoder, the
OpenAI endpoint and the JSON parser are oracles: the theorems quantify over
them. -/

/-- raw bytes of an uploaded file -/
def Bytes := List Nat

/-- the filesystem: path to file contents -/
def FS := String → Option Bytes

/-- one paragraph of a docx document, as exposed by `python-docx` -/
structure Paragraph where
  text : String
deriving DecidableEq, Repr

/-- a parsed docx document, as exposed by `python-docx` -/
structure Docx where
  paragraphs : List Paragraph
deriving DecidableEq, Repr

/-- oracle for `docx.Document`: bytes parse to a document or fail -/
def DocxParser := Bytes → Option Docx

/-- oracle for `tiktoken.encoding_for_model("gpt-4").encode` -/
def Encoder := String → List Nat

/-- one message of the chat request -/
structure ChatMessage where
  role : String
  content : String
deriving DecidableEq, Repr

/-- the single blocking request `review_resolution` sends -/
structure ChatRequest where
  model : String
  messages : List ChatMessage
  response_format : String
deriving DecidableEq, Repr

/-- oracle for `client.chat.completions.create`: returns the response
content string, or raises -/
def ChatApi := ChatRequest → Except PyExc String

/-- oracle for `json.loads`: a content string parses to a value or fails -/
def JsonParser := String → Option PyVal

/-! ## Embedding of `src/resolution_reviewer.py` -/

/-- `count_tokens` (lines 8–10): length of the token encoding of `text` -/
def count_tokens (enc : Encoder) (text : String) : Nat :=
  (enc text).length

/-- `ResolutionReviewer.__init__` state (lines 13–15) -/
structure ResolutionReviewer where
  api_key : String
  system_prompt : String
deriving DecidableEq, Repr

/-- `ResolutionReviewer.__init__` (lines 13–15): stores the static system
prompt produced by `_get_system_prompt` -/
def mkReviewer (api_key : String) : ResolutionReviewer :=
  { api_key := api_key, system_prompt := system_prompt_text }

/-- `ResolutionReviewer.read_document` applied to an already-parsed
document: join the paragraph texts with newlines (line 98) -/
def read_document_text (doc : Docx) : String :=
  String.intercalate "\n" (doc.paragraphs.map Paragraph.text)

/-- `ResolutionReviewer.read_document` (lines 96–98): `Document(file_path)`
then the newline join; opening or parsing failures raise -/
def read_document (docxParse : DocxParser) (fs : FS) (file_path : String) :
    Except PyExc String :=
  match fs file_path with
  | Option.none => .error .docReadError
  | some bs =>
    match docxParse bs with
    | Option.none => .error .docReadError
    | some doc => .ok (read_document_text doc)

/-- `ResolutionReviewer._get_examples` (lines 118–207) -/
def get_examples : String × String × String :=
  (ex_original_text, ex_modified_text, changes_text)

/-- `ResolutionReviewer._build_user_prompt` (lines 209–230): the f-string
with its five literal segments and four interpolations -/
def build_user_prompt (ex_original ex_modified changes resolution_text : String) :
    String :=
  seg1 ++ ex_original ++ seg2 ++ ex_modified ++ seg3 ++ changes ++ seg4 ++
    resolution_text ++ seg5

/-- the request `review_resolution` sends for a given extracted text
(lines 107–114) -/
def build_request (self : ResolutionReviewer) (user_prompt : String) : ChatRequest :=
  { model := "gpt-4.1-mini-2025-04-14"
    messages := [{ role := "system", content := self.system_prompt },
                 { role := "user", content := user_prompt }]
    response_format := "json_object" }

/-- result of one call of `review_resolution`: its return value or raised
exception, the requests it sent, and the debug line it printed -/
structure ReviewCallResult where
  outcome : Except PyExc PyVal
  requests : List ChatRequest
  debugEvents : List String

/-- `ResolutionReviewer.review_resolution` (lines 100–116): read the
document, build the prompts, count tokens (informational only), send one
request, print the raw content, parse it as JSON and return the parsed
value; any failure raises to the caller, with no retry -/
def review_resolution (enc : Encoder) (api : ChatApi) (parseJson : JsonParser)
    (docxParse : DocxParser) (fs : FS) (self : ResolutionReviewer)
    (file_path : String) : ReviewCallResult :=
  match read_document docxParse fs file_path with
  | .error e => { outcome := .error e, requests := [], debugEvents := [] }
  | .ok resolution_text =>
    let exs := get_examples
    let user_prompt := build_user_prompt exs.1 exs.2.1 exs.2.2 resolution_text
    let system_tokens := count_tokens enc self.system_prompt
    let user_tokens := count_tokens enc user_prompt
    let total_tokens := system_tokens + user_tokens
    let request := build_request self user_prompt
    match api request with
    | .error e => { outcome := .error e, requests := [request], debugEvents := [] }
    | .ok content =>
      let dbg := ["DEBUG: response.choices[0].message.content = " ++ content]
      match parseJson content with
      | Option.none =>
        { outcome := .error .jsonDecodeError, requests := [request], debugEvents := dbg }
      | some v => { outcome := .ok v, requests := [request], debugEvents := dbg }


/-! ## Embedding of `src/app.py`

Streamlit calls become a trace of `UIEvent`s; `st.button` and
`st.file_uploader` results are inputs.  A `try/except/finally` block is
modelled by collecting the events emitted before an exception, then
appending the `except` handler event, then applying the `finally` cleanup
to the filesystem. -/

inductive UIEvent where
  | pageConfig
  | title (s : String)
  | markdown (s : String)
  | header (s : String)
  | subheader (s : String)
  | fileUploader
  | textArea (label text : String)
  | expanderViolation (location : PyVal)
  | success (s : String)
  | info (v : PyVal)
  | errorMsg (s : String)
  | spinner
  | stopped
  | debugPrint (s : String)

/-- result of `select_or_upload_file` (app.py lines 5–17) -/
structure UploadResult where
  file_to_review : Option String
  file_source : Option String
  temp_file_path : Option String
  fs : FS
  events : List UIEvent

/-- `select_or_upload_file` (app.py lines 5–17): when a file is uploaded its
bytes are written to the fixed path `temp_resolution.docx` with `open(path,
"wb")`, i.e. a truncating write that replaces any previous contents -/
def select_or_upload_file (res_dir : String) (uploaded_file : Option Bytes)
    (fs : FS) : UploadResult :=
  let events := [UIEvent.subheader "Upload a Resolution Document", UIEvent.fileUploader]
  match uploaded_file with
  | Option.none =>
    { file_to_review := Option.none, file_source := Option.none,
      temp_file_path := Option.none, fs := fs, events := events }
  | some bs =>
    let temp_file_path := "temp_resolution.docx"
    { file_to_review := some temp_file_path, file_source := some "uploaded",
      temp_file_path := some temp_file_path,
      fs := fun p => if p = temp_file_path then some bs else fs p,
      events := events }

/-- `show_document_preview` (app.py lines 19–25): the extraction error is
caught and shown inline -/
def show_document_preview (docxParse : DocxParser) (fs : FS)
    (file_to_review : String) : List UIEvent :=
  match read_document docxParse fs file_to_review with
  | .ok extracted_text => [UIEvent.textArea "Extracted Text" extracted_text]
  | .error e => [UIEvent.errorMsg ("Could not extract text: " ++ pyExcStr e)]

/-- events of a partial render together with the exception, if any, that
aborted it -/
abbrev RenderOut := List UIEvent × Option PyExc

/-- sequencing of two render steps: the second runs only if the first did
not raise -/
def uiSeq (a b : RenderOut) : RenderOut :=
  match a.2 with
  | some e => (a.1, some e)
  | Option.none => (a.1 ++ b.1, b.2)

/-- rendering of one violation entry (app.py lines 38–41 and 48–51): the
expander labelled with `violation['location']`, then the rule, issue and
suggestion markdown lines; a missing field raises mid-render -/
def render_violation (violation : PyVal) : RenderOut :=
  match pyGetItem violation "location" with
  | .error e => ([], some e)
  | .ok location =>
    match pyGetItem violation "rule" with
    | .error e => ([UIEvent.expanderViolation location], some e)
    | .ok rule =>
      match pyGetItem violation "description" with
      | .error e =>
        ([UIEvent.expanderViolation location,
          UIEvent.markdown ("**Rule:** " ++ pyStr rule)], some e)
      | .ok description =>
        match pyGetItem violation "suggestion" with
        | .error e =>
          ([UIEvent.expanderViolation location,
            UIEvent.markdown ("**Rule:** " ++ pyStr rule),
            UIEvent.markdown ("**Issue:** " ++ pyStr description)], some e)
        | .ok suggestion =>
          ([UIEvent.expanderViolation location,
            UIEvent.markdown ("**Rule:** " ++ pyStr rule),
            UIEvent.markdown ("**Issue:** " ++ pyStr description),
            UIEvent.markdown ("**Suggestion:** " ++ pyStr suggestion)], Option.none)

/-- the `for violation in ...` loop body over a violation list -/
def render_violation_list : List PyVal → RenderOut
  | [] => ([], Option.none)
  | v :: rest => uiSeq (render_violation v) (render_violation_list rest)

/-- one column of the results display (app.py lines 34–43 / 44–53): the
subheader, then either the violation loop or the success indicator -/
def render_column (results : PyVal) (key colTitle noneMsg : String) : RenderOut :=
  match pyGetItem results key with
  | .error e => ([UIEvent.subheader colTitle], some e)
  | .ok v =>
    if pyTruthy v then
      match pyIter v with
      | .error e => ([UIEvent.subheader colTitle], some e)
      | .ok vs => uiSeq ([UIEvent.subheader colTitle], Option.none) (render_violation_list vs)
    else ([UIEvent.subheader colTitle, UIEvent.success noneMsg], Option.none)

/-- the whole results display of `analyze_and_display_results`
(app.py lines 32–55): header, two violation columns, overall assessment -/
def render_results (results : PyVal) : RenderOut :=
  uiSeq ([UIEvent.header "Review Results"], Option.none)
    (uiSeq (render_column results "template_violations" "Template Violations"
              "No template violations found.")
      (uiSeq (render_column results "formatting_violations" "Formatting Violations"
                "No formatting violations found.")
        (match pyGetItem results "overall_assessment" with
         | .error e => ([UIEvent.subheader "Overall Assessment"], some e)
         | .ok assessment =>
           ([UIEvent.subheader "Overall Assessment", UIEvent.info assessment],
             Option.none))))

/-- result of one review interaction -/
structure InteractionResult where
  events : List UIEvent
  fs : FS
  requests : List ChatRequest

/-- `analyze_and_display_results` (app.py lines 27–60): when the button is
pressed, run the review and render inside `try`, show any exception inline
in `except`, and in `finally` remove the uploaded temporary file if it
exists -/
def analyze_and_display_results (pressed : Bool) (enc : Encoder) (api : ChatApi)
    (parseJson : JsonParser) (docxParse : DocxParser)
    (reviewer : ResolutionReviewer) (file_to_review : String)
    (file_source : Option String) (temp_file_path : Option String)
    (fs : FS) : InteractionResult :=
  if pressed then
    let r := review_resolution enc api parseJson docxParse fs reviewer file_to_review
    let tryResult : RenderOut :=
      match r.outcome with
      | .error e => (UIEvent.spinner :: r.debugEvents.map UIEvent.debugPrint, some e)
      | .ok results =>
        uiSeq (UIEvent.spinner :: r.debugEvents.map UIEvent.debugPrint, Option.none)
          (render_results results)
    let events :=
      match tryResult.2 with
      | some e => tryResult.1 ++ [UIEvent.errorMsg ("An error occurred: " ++ pyExcStr e)]
      | Option.none => tryResult.1
    let fs' : FS :=
      if file_source = some "uploaded" then
        match temp_file_path with
        | some p => if (fs p).isSome then (fun q => if q = p then Option.none else fs q) else fs
        | Option.none => fs
      else fs
    { events := events, fs := fs', requests := r.requests }
  else { events := [], fs := fs, requests := [] }

/-- result of one run of `main` -/
structure AppResult where
  events : List UIEvent
  fs : FS
  reviewer_constructed : Bool
  requests : List ChatRequest

/-- the markdown blurb of `main` (app.py lines 69–71) -/
def intro_markdown : String :=
  "\nThis tool analyzes CUNY Board of Trustees resolutions for compliance with templates and rules.\n\n\n"

/-- `main` (app.py lines 62–83): read the credential once; on a missing or
empty key show the error and stop before building a reviewer; otherwise run
the upload flow, and with an uploaded file show the preview and the
analyze action -/
def main_app (env : String → Option String) (uploaded_file : Option Bytes)
    (pressed : Bool) (enc : Encoder) (api : ChatApi) (parseJson : JsonParser)
    (docxParse : DocxParser) (fs : FS) : AppResult :=
  let intro := [UIEvent.pageConfig, UIEvent.title "CUNY Resolution Reviewer",
                UIEvent.markdown intro_markdown]
  let halt : AppResult :=
    { events := intro ++
        [UIEvent.errorMsg "Please set the OPENAI_API_KEY environment variable.",
         UIEvent.stopped],
      fs := fs, reviewer_constructed := false, requests := [] }
  match env "OPENAI_API_KEY" with
  | Option.none => halt
  | some key =>
    if key = "" then halt
    else
      let res_dir := "reinaccurateboardresolutions"
      let up := select_or_upload_file res_dir uploaded_file fs
      match up.file_to_review with
      | some file_to_review =>
        let reviewer := mkReviewer key
        let preview := show_document_preview docxParse up.fs file_to_review
        let inter := analyze_and_display_results pressed enc api parseJson docxParse
          reviewer file_to_review up.file_source up.temp_file_path up.fs
        { events := intro ++ up.events ++ preview ++ inter.events,
          fs := inter.fs, reviewer_constructed := true, requests := inter.requests }
      | Option.none =>
        { events := intro ++ up.events ++ [UIEvent.info (PyVal.str "Please upload a .docx file to begin.")],
          fs := up.fs, reviewer_constructed := false, requests := [] }


/-! ## Claim theorems -/

/-- C5: `count_tokens` output never changes control flow: the outcome, the
requests (hence the messages sent to the model endpoint) and the debug
output of `review_resolution` are identical under any two token encoders,
i.e. under any two values the token counts could take. -/
theorem count_tokens_no_control_flow (enc₁ enc₂ : Encoder) (api : ChatApi)
    (parseJson : JsonParser) (docxParse : DocxParser) (fs : FS)
    (self : ResolutionReviewer) (file_path : String) :
    review_resolution enc₁ api parseJson docxParse fs self file_path =
      review_resolution enc₂ api parseJson docxParse fs self file_path := rfl

/-- C9: every upload is written to the single fixed path
`temp_resolution.docx` with truncating write semantics — the new contents
replace any previous contents in full, the upload flow never touches any
other path, and with no upload the filesystem is unchanged. -/
theorem upload_single_fixed_path (res_dir : String) (uploaded : Option Bytes)
    (fs : FS) :
    (∀ p, p ≠ "temp_resolution.docx" →
      (select_or_upload_file res_dir uploaded fs).fs p = fs p)
    ∧ (∀ bs, uploaded = some bs →
        (select_or_upload_file res_dir uploaded fs).fs "temp_resolution.docx" = some bs
        ∧ (select_or_upload_file res_dir uploaded fs).file_to_review =
            some "temp_resolution.docx"
        ∧ (select_or_upload_file res_dir uploaded fs).temp_file_path =
            some "temp_resolution.docx")
    ∧ (uploaded = Option.none → (select_or_upload_file res_dir uploaded fs).fs = fs) := by
  refine ⟨?_, ?_, ?_⟩
  · intro p hp
    cases uploaded <;> simp [select_or_upload_file, hp]
  · intro bs hbs
    subst hbs
    simp [select_or_upload_file]
  · intro h
    subst h
    simp [select_or_upload_file]

/-- witness for C9 at a concrete filesystem and upload -/
theorem upload_single_fixed_path_witness :
    (select_or_upload_file "d" (some [7]) (fun _ => Option.none)).fs "other.docx" =
      (fun _ => (Option.none : Option Bytes)) "other.docx"
    ∧ (select_or_upload_file "d" (some [7]) (fun _ => Option.none)).fs
        "temp_resolution.docx" = some [7] := by
  constructor
  · exact (upload_single_fixed_path "d" (some [7]) (fun _ => Option.none)).1
      "other.docx" (by decide)
  · exact ((upload_single_fixed_path "d" (some [7]) (fun _ => Option.none)).2.1
      [7] rfl).1

/-- C8: with the credential variable absent or empty, `main` shows the
error, halts before constructing a reviewer and performs no review; with a
nonempty credential present, execution reaches the upload flow. -/
theorem api_key_gate (env : String → Option String) (uploaded : Option Bytes)
    (pressed : Bool) (enc : Encoder) (api : ChatApi) (parseJson : JsonParser)
    (docxParse : DocxParser) (fs : FS) :
    ((env "OPENAI_API_KEY" = Option.none ∨ env "OPENAI_API_KEY" = some "") →
      (main_app env uploaded pressed enc api parseJson docxParse fs).events =
        [UIEvent.pageConfig, UIEvent.title "CUNY Resolution Reviewer",
         UIEvent.markdown intro_markdown,
         UIEvent.errorMsg "Please set the OPENAI_API_KEY environment variable.",
         UIEvent.stopped]
      ∧ (main_app env uploaded pressed enc api parseJson docxParse fs).reviewer_constructed
          = false
      ∧ (main_app env uploaded pressed enc api parseJson docxParse fs).requests = []
      ∧ (main_app env uploaded pressed enc api parseJson docxParse fs).fs = fs)
    ∧ (∀ key, env "OPENAI_API_KEY" = some key → key ≠ "" →
        UIEvent.fileUploader ∈
          (main_app env uploaded pressed enc api parseJson docxParse fs).events) := by
  constructor
  · rintro (h | h) <;> simp [main_app, h]
  · intro key hk hne
    simp only [main_app, hk]
    rw [if_neg hne]
    cases uploaded <;> simp [select_or_upload_file]

/-- witness for C8: absent key halts, nonempty key reaches the uploader -/
theorem api_key_gate_witness :
    (main_app (fun _ => Option.none) Option.none false (fun _ => []) (fun _ => .ok "")
        (fun _ => Option.none) (fun _ => Option.none)
        (fun _ => Option.none)).reviewer_constructed = false
    ∧ UIEvent.fileUploader ∈
        (main_app (fun _ => some "k") Option.none false (fun _ => []) (fun _ => .ok "")
          (fun _ => Option.none) (fun _ => Option.none) (fun _ => Option.none)).events := by
  constructor
  · exact ((api_key_gate (fun _ => Option.none) Option.none false (fun _ => [])
      (fun _ => .ok "") (fun _ => Option.none) (fun _ => Option.none)
      (fun _ => Option.none)).1 (Or.inl rfl)).2.1
  · exact (api_key_gate (fun _ => some "k") Option.none false (fun _ => [])
      (fun _ => .ok "") (fun _ => Option.none) (fun _ => Option.none)
      (fun _ => Option.none)).2 "k" rfl (by decide)

/-- C1: in a complete review interaction (a nonempty key, an uploaded file,
the analyze button pressed), under every review outcome — API error, JSON
parse failure, rendering failure on a malformed result, or full success —
no file exists at `temp_resolution.docx` afterwards. -/
theorem temp_file_cleanup (env : String → Option String) (key : String)
    (bs : Bytes) (enc : Encoder) (api : ChatApi) (parseJson : JsonParser)
    (docxParse : DocxParser) (fs : FS)
    (hkey : env "OPENAI_API_KEY" = some key) (hne : key ≠ "") :
    (main_app env (some bs) true enc api parseJson docxParse fs).fs
      "temp_resolution.docx" = Option.none := by
  simp only [main_app, hkey]
  rw [if_neg hne]
  simp [select_or_upload_file, analyze_and_display_results]

/-- witness for C1 at concrete oracles -/
theorem temp_file_cleanup_witness :
    (main_app (fun _ => some "k") (some [1]) true (fun _ => []) (fun _ => .ok "x")
        (fun _ => Option.none) (fun _ => Option.none) (fun _ => Option.none)).fs
      "temp_resolution.docx" = Option.none :=
  temp_file_cleanup (fun _ => some "k") "k" [1] (fun _ => []) (fun _ => .ok "x")
    (fun _ => Option.none) (fun _ => Option.none) (fun _ => Option.none) rfl
    (by decide)

/-- C3: once the document text is extracted, `review_resolution` issues
exactly one request (also when that request errors — no retry); an API
error propagates as-is; content that fails to parse as JSON raises a
decode error; and content that parses is returned as-is, with no
validation of its keys (the last clause holds for every parsed value `v`,
including mappings lacking the three expected keys). -/
theorem review_resolution_contract (enc : Encoder) (api : ChatApi)
    (parseJson : JsonParser) (docxParse : DocxParser) (fs : FS)
    (self : ResolutionReviewer) (file_path text : String)
    (hread : read_document docxParse fs file_path = .ok text) :
    (review_resolution enc api parseJson docxParse fs self file_path).requests =
      [build_request self (build_user_prompt ex_original_text ex_modified_text changes_text text)]
    ∧ (∀ e, api (build_request self (build_user_prompt ex_original_text ex_modified_text changes_text text)) = .error e →
        (review_resolution enc api parseJson docxParse fs self file_path).outcome =
          .error e)
    ∧ (∀ content, api (build_request self (build_user_prompt ex_original_text ex_modified_text changes_text text)) = .ok content →
        parseJson content = Option.none →
        (review_resolution enc api parseJson docxParse fs self file_path).outcome =
          .error .jsonDecodeError)
    ∧ (∀ content v, api (build_request self (build_user_prompt ex_original_text ex_modified_text changes_text text)) = .ok content →
        parseJson content = some v →
        (review_resolution enc api parseJson docxParse fs self file_path).outcome =
          .ok v) := by
  refine ⟨?_, ?_, ?_, ?_⟩
  · cases h : api (build_request self (build_user_prompt ex_original_text ex_modified_text changes_text text)) <;>
      simp [review_resolution, hread, get_examples, h] <;>
      cases parseJson ‹String› <;> simp
  · intro e he
    simp [review_resolution, hread, get_examples, he]
  · intro content hc hp
    simp [review_resolution, hread, get_examples, hc, hp]
  · intro content v hc hp
    simp [review_resolution, hread, get_examples, hc, hp]

/-- witness for C3 at concrete oracles, exercising the success path on a
parsed mapping that lacks all three expected keys -/
theorem review_resolution_contract_witness :
    read_document (fun _ => some { paragraphs := [{ text := "hello" }] })
        (fun _ => some ([] : Bytes)) "p" = .ok "hello"
    ∧ (review_resolution (fun _ => []) (fun _ => .ok "j")
        (fun _ => some (PyVal.dict []))
        (fun _ => some { paragraphs := [{ text := "hello" }] })
        (fun _ => some ([] : Bytes)) (mkReviewer "k") "p").outcome =
        .ok (PyVal.dict []) := by
  constructor
  · rfl
  · exact (review_resolution_contract (fun _ => []) (fun _ => .ok "j")
      (fun _ => some (PyVal.dict []))
      (fun _ => some { paragraphs := [{ text := "hello" }] })
      (fun _ => some ([] : Bytes)) (mkReviewer "k") "p" "hello" rfl).2.2.2
      "j" (PyVal.dict []) rfl rfl


/-! ### Rendering lemmas for C6 and C7 -/

lemma uiSeq_none (a b : RenderOut) :
    (uiSeq a b).2 = Option.none ↔ a.2 = Option.none ∧ b.2 = Option.none := by
  cases h : a.2 <;> simp [uiSeq, h]

/-- a render that completed without an exception successfully subscripted
all three top-level keys -/
lemma render_results_ok_keys (v : PyVal)
    (h : (render_results v).2 = Option.none) :
    (pyGetItem v "template_violations").isOk = true
    ∧ (pyGetItem v "formatting_violations").isOk = true
    ∧ (pyGetItem v "overall_assessment").isOk = true := by
  rw [render_results, uiSeq_none] at h
  obtain ⟨-, h⟩ := h
  rw [uiSeq_none] at h
  obtain ⟨h1, h⟩ := h
  rw [uiSeq_none] at h
  obtain ⟨h2, h3⟩ := h
  refine ⟨?_, ?_, ?_⟩
  · cases hk : pyGetItem v "template_violations"
    · simp [render_column, hk] at h1
    · rfl
  · cases hk : pyGetItem v "formatting_violations"
    · simp [render_column, hk] at h2
    · rfl
  · cases hk : pyGetItem v "overall_assessment"
    · simp [hk] at h3
    · rfl

/-- C6: a well-formed mapping whose two violation arrays are empty renders
without an exception, shows both success indicators, and shows the overall
assessment. -/
theorem empty_violations_render (entries : List (String × PyVal)) (assessment : PyVal)
    (ht : entries.lookup "template_violations" = some (PyVal.list []))
    (hf : entries.lookup "formatting_violations" = some (PyVal.list []))
    (ho : entries.lookup "overall_assessment" = some assessment) :
    (render_results (PyVal.dict entries)).2 = Option.none
    ∧ UIEvent.success "No template violations found."
        ∈ (render_results (PyVal.dict entries)).1
    ∧ UIEvent.success "No formatting violations found."
        ∈ (render_results (PyVal.dict entries)).1
    ∧ UIEvent.info assessment ∈ (render_results (PyVal.dict entries)).1 := by
  simp [render_results, render_column, pyGetItem, ht, hf, ho, pyTruthy, uiSeq]

/-- witness for C6 on a concrete empty-violations mapping -/
theorem empty_violations_render_witness :
    UIEvent.success "No template violations found."
      ∈ (render_results (PyVal.dict
          [("template_violations", PyVal.list []),
           ("formatting_violations", PyVal.list []),
           ("overall_assessment", PyVal.str "Compliant")])).1
    ∧ UIEvent.info (PyVal.str "Compliant")
      ∈ (render_results (PyVal.dict
          [("template_violations", PyVal.list []),
           ("formatting_violations", PyVal.list []),
           ("overall_assessment", PyVal.str "Compliant")])).1 := by
  refine ⟨?_, ?_⟩
  · exact (empty_violations_render
      [("template_violations", PyVal.list []),
       ("formatting_violations", PyVal.list []),
       ("overall_assessment", PyVal.str "Compliant")]
      (PyVal.str "Compliant") rfl rfl rfl).2.1
  · exact (empty_violations_render
      [("template_violations", PyVal.list []),
       ("formatting_violations", PyVal.list []),
       ("overall_assessment", PyVal.str "Compliant")]
      (PyVal.str "Compliant") rfl rfl rfl).2.2.2

/-- C7: when the parsed response is a mapping missing one of the three
required top-level keys, the review action surfaces an inline error event
rather than completing silently. -/
theorem missing_key_inline_error (enc : Encoder) (api : ChatApi)
    (parseJson : JsonParser) (docxParse : DocxParser) (fs : FS)
    (reviewer : ResolutionReviewer) (path text content : String)
    (entries : List (String × PyVal)) (file_source : Option String)
    (temp_path : Option String)
    (hread : read_document docxParse fs path = .ok text)
    (hapi : api (build_request reviewer
        (build_user_prompt ex_original_text ex_modified_text changes_text text)) =
        .ok content)
    (hparse : parseJson content = some (PyVal.dict entries))
    (hmiss : entries.lookup "template_violations" = Option.none
      ∨ entries.lookup "formatting_violations" = Option.none
      ∨ entries.lookup "overall_assessment" = Option.none) :
    ∃ s, UIEvent.errorMsg s ∈
      (analyze_and_display_results true enc api parseJson docxParse reviewer path
        file_source temp_path fs).events := by
  have hout : (review_resolution enc api parseJson docxParse fs reviewer path).outcome =
      .ok (PyVal.dict entries) := by
    simp [review_resolution, hread, get_examples, hapi, hparse]
  have hrr : (render_results (PyVal.dict entries)).2 ≠ Option.none := by
    intro hnone
    obtain ⟨h1, h2, h3⟩ := render_results_ok_keys _ hnone
    rcases hmiss with hm | hm | hm
    · simp [pyGetItem, hm, Except.isOk, Except.toBool] at h1
    · simp [pyGetItem, hm, Except.isOk, Except.toBool] at h2
    · simp [pyGetItem, hm, Except.isOk, Except.toBool] at h3
  obtain ⟨e, he⟩ : ∃ e, (render_results (PyVal.dict entries)).2 = some e := by
    cases h : (render_results (PyVal.dict entries)).2
    · exact absurd h hrr
    · exact ⟨_, rfl⟩
  refine ⟨"An error occurred: " ++ pyExcStr e, ?_⟩
  simp [analyze_and_display_results, hout, uiSeq, he]


/-- witness for C7: a mapping with the two violation arrays but no
`overall_assessment` key yields an inline error event -/
theorem missing_key_inline_error_witness :
    ∃ s, UIEvent.errorMsg s ∈
      (analyze_and_display_results true (fun _ => []) (fun _ => .ok "j")
        (fun _ => some (PyVal.dict
          [("template_violations", PyVal.list []),
           ("formatting_violations", PyVal.list [])]))
        (fun _ => some { paragraphs := [{ text := "hello" }] })
        (mkReviewer "k") "p" (some "uploaded") (some "temp_resolution.docx")
        (fun _ => some ([] : Bytes))).events :=
  missing_key_inline_error (fun _ => []) (fun _ => .ok "j")
    (fun _ => some (PyVal.dict
      [("template_violations", PyVal.list []),
       ("formatting_violations", PyVal.list [])]))
    (fun _ => some { paragraphs := [{ text := "hello" }] })
    (fun _ => some ([] : Bytes)) (mkReviewer "k") "p" "hello" "j"
    [("template_violations", PyVal.list []),
     ("formatting_violations", PyVal.list [])]
    (some "uploaded") (some "temp_resolution.docx") rfl rfl rfl
    (Or.inr (Or.inr rfl))

/-! ### Newline-join infrastructure for C4 -/

/-- split a character list at every occurrence of `c` -/
def splitOnChar (c : Char) : List Char → List (List Char)
  | [] => [[]]
  | x :: xs =>
    if x = c then [] :: splitOnChar c xs
    else
      match splitOnChar c xs with
      | [] => [[x]]
      | y :: ys => (x :: y) :: ys

/-- join character lists with a single newline between consecutive items -/
def joinNl : List (List Char) → List Char
  | [] => []
  | [x] => x
  | x :: y :: rest => x ++ '\n' :: joinNl (y :: rest)

lemma splitOnChar_ne_nil (c : Char) (l : List Char) : splitOnChar c l ≠ [] := by
  induction l with
  | nil => simp [splitOnChar]
  | cons x xs ih =>
    by_cases h : x = c
    · simp [splitOnChar, h]
    · simp only [splitOnChar, if_neg h]
      cases hs : splitOnChar c xs <;> simp

lemma splitOnChar_of_not_mem (c : Char) (x : List Char) (h : c ∉ x) :
    splitOnChar c x = [x] := by
  induction x with
  | nil => rfl
  | cons a as ih =>
    have ha : a ≠ c := fun hac => h (hac ▸ List.mem_cons_self a as)
    have has : c ∉ as := fun hc => h (List.mem_cons_of_mem a hc)
    simp only [splitOnChar, if_neg ha, ih has]

lemma splitOnChar_append (c : Char) (x rest : List Char) (h : c ∉ x) :
    splitOnChar c (x ++ c :: rest) = x :: splitOnChar c rest := by
  induction x with
  | nil => simp [splitOnChar]
  | cons a as ih =>
    have ha : a ≠ c := fun hac => h (hac ▸ List.mem_cons_self a as)
    have has : c ∉ as := fun hc => h (List.mem_cons_of_mem a hc)
    rw [List.cons_append]
    simp only [splitOnChar, if_neg ha, ih has]

lemma splitOnChar_joinNl (L : List (List Char)) (hne : L ≠ [])
    (h : ∀ x ∈ L, '\n' ∉ x) :
    splitOnChar '\n' (joinNl L) = L := by
  induction L with
  | nil => exact absurd rfl hne
  | cons x rest ih =>
    cases rest with
    | nil =>
      exact splitOnChar_of_not_mem '\n' x (h x (List.mem_cons_self x []))
    | cons y t =>
      rw [joinNl, splitOnChar_append '\n' x (joinNl (y :: t))
        (h x (List.mem_cons_self x (y :: t)))]
      rw [ih (by simp) (fun z hz => h z (List.mem_cons_of_mem x hz))]

lemma intercalate_go_data (as : List String) : ∀ acc : String,
    (String.intercalate.go acc "\n" as).data =
      joinNl (acc.data :: as.map String.data) := by
  induction as with
  | nil => intro acc; simp [String.intercalate.go, joinNl]
  | cons a as ih =>
    intro acc
    rw [String.intercalate.go, ih (acc ++ "\n" ++ a), List.map_cons]
    have hdata : (acc ++ "\n" ++ a).data = acc.data ++ '\n' :: a.data := by
      simp [String.data_append]
    rw [hdata]
    cases has : as.map String.data with
    | nil => simp [joinNl]
    | cons m ms => simp [joinNl, List.append_assoc]

lemma read_document_text_data (doc : Docx) (h : doc.paragraphs ≠ []) :
    (read_document_text doc).data =
      joinNl (doc.paragraphs.map (fun p => p.text.data)) := by
  rw [read_document_text]
  cases hp : doc.paragraphs with
  | nil => exact absurd hp h
  | cons p ps =>
    rw [List.map_cons, String.intercalate, intercalate_go_data]
    rw [List.map_map]
    rfl

/-- C4: `read_document` joins the paragraph texts with single newlines, in
document order, preserving empty paragraphs — splitting the result at
newlines recovers the exact paragraph sequence — and performs no
validation: whenever the file opens and parses, the joined text is
returned unchanged, whatever its content. -/
theorem read_document_joins (doc : Docx)
    (hne : doc.paragraphs ≠ [])
    (hnl : ∀ p ∈ doc.paragraphs, '\n' ∉ p.text.data) :
    splitOnChar '\n' (read_document_text doc).data =
      doc.paragraphs.map (fun p => p.text.data)
    ∧ ∀ (docxParse : DocxParser) (fs : FS) (path : String) (bs : Bytes),
        fs path = some bs → docxParse bs = some doc →
        read_document docxParse fs path = .ok (read_document_text doc) := by
  constructor
  · rw [read_document_text_data doc hne]
    refine splitOnChar_joinNl _ (by simpa using hne) ?_
    intro x hx
    obtain ⟨p, hp, rfl⟩ := List.mem_map.mp hx
    exact hnl p hp
  · intro docxParse fs path bs hfs hparse
    simp [read_document, hfs, hparse]

/-- witness for C4 on a concrete document with an empty paragraph and no
structural marker lines -/
theorem read_document_joins_witness :
    splitOnChar '\n'
        (read_document_text
          { paragraphs := [{ text := "WHEREAS, test; and" }, { text := "" },
                           { text := "RESOLVED, Done." }] }).data =
      [{ text := "WHEREAS, test; and" : Paragraph }, { text := "" },
       { text := "RESOLVED, Done." }].map (fun p => p.text.data)
    ∧ read_document
        (fun _ => some { paragraphs := [{ text := "WHEREAS, test; and" }, { text := "" },
                                        { text := "RESOLVED, Done." }] })
        (fun _ => some ([] : Bytes)) "p" =
        .ok (read_document_text
          { paragraphs := [{ text := "WHEREAS, test; and" }, { text := "" },
                           { text := "RESOLVED, Done." }] }) := by
  constructor
  · exact (read_document_joins
      { paragraphs := [{ text := "WHEREAS, test; and" }, { text := "" },
                       { text := "RESOLVED, Done." }] }
      (by simp) (by decide)).1
  · exact (read_document_joins
      { paragraphs := [{ text := "WHEREAS, test; and" }, { text := "" },
                       { text := "RESOLVED, Done." }] }
      (by simp) (by decide)).2
      (fun _ => some { paragraphs := [{ text := "WHEREAS, test; and" }, { text := "" },
                                      { text := "RESOLVED, Done." }] })
      (fun _ => some ([] : Bytes)) "p" [] rfl rfl


/-! ### Prompt-structure infrastructure for C2 and C10 -/

/-- the constant part of the user prompt that precedes the document text -/
def prompt_fixed_head : String :=
  seg1 ++ ex_original_text ++ seg2 ++ ex_modified_text ++ seg3 ++ changes_text ++ seg4

/-- the constant part of the user prompt that follows the document text -/
def prompt_fixed_tail : String := seg5

/-- C2: the user prompt is the constant head (which contains the whole
worked-example block, ending in the `EXAMPLE END` marker), then the
document text verbatim, then a constant tail — nothing besides the
document text varies; the system prompt is byte-identical across reviewer
instances, and equal extracted texts give equal user prompts. -/
theorem prompt_determinism (T k₁ k₂ T' : String) :
    build_user_prompt ex_original_text ex_modified_text changes_text T =
      prompt_fixed_head ++ T ++ prompt_fixed_tail
    ∧ (mkReviewer k₁).system_prompt = (mkReviewer k₂).system_prompt
    ∧ (T = T' → build_user_prompt ex_original_text ex_modified_text changes_text T =
        build_user_prompt ex_original_text ex_modified_text changes_text T')
    ∧ ∃ lft rgt : List Char,
        prompt_fixed_head.data = lft ++ "<EXAMPLE END>".data ++ rgt := by
  refine ⟨?_, rfl, fun h => h ▸ rfl, ?_⟩
  · apply String.ext
    simp [build_user_prompt, prompt_fixed_head, prompt_fixed_tail,
      String.data_append, List.append_assoc]
  · refine ⟨(seg1 ++ ex_original_text ++ seg2 ++ ex_modified_text ++ seg3 ++
      changes_text).data ++ seg4a.data, seg4b.data, ?_⟩
    have hseg4 : seg4 = seg4a ++ ("<EXAMPLE END>" ++ seg4b) := by decide
    rw [prompt_fixed_head, hseg4]
    simp [String.data_append, List.append_assoc]

/-- witness for C2 at a concrete document text and two concrete keys -/
theorem prompt_determinism_witness :
    build_user_prompt ex_original_text ex_modified_text changes_text "doc" =
      prompt_fixed_head ++ "doc" ++ prompt_fixed_tail
    ∧ (mkReviewer "a").system_prompt = (mkReviewer "b").system_prompt
    ∧ build_user_prompt ex_original_text ex_modified_text changes_text "doc" =
        build_user_prompt ex_original_text ex_modified_text changes_text "doc" :=
  ⟨(prompt_determinism "doc" "a" "b" "doc").1,
   (prompt_determinism "doc" "a" "b" "doc").2.1,
   (prompt_determinism "doc" "a" "b" "doc").2.2.1 rfl⟩

lemma cntO_seg1 : countOcc hOriginal.data seg1.data = 1 := by decide

lemma safeO_seg1 : LeftSafe hOriginal.data seg1.data := by decide

lemma cntO_exOc1 : countOcc hOriginal.data exOc1.data = 0 := by decide

lemma safeO_exOc1 : LeftSafe hOriginal.data exOc1.data := by decide

lemma cntO_exOc2 : countOcc hOriginal.data exOc2.data = 0 := by decide

lemma safeO_exOc2 : LeftSafe hOriginal.data exOc2.data := by decide

lemma cntO_exOc3 : countOcc hOriginal.data exOc3.data = 0 := by decide

lemma safeO_exOc3 : LeftSafe hOriginal.data exOc3.data := by decide

lemma cntO_exOc4 : countOcc hOriginal.data exOc4.data = 0 := by decide

lemma safeO_exOc4 : LeftSafe hOriginal.data exOc4.data := by decide

lemma cntO_exOc5 : countOcc hOriginal.data exOc5.data = 0 := by decide

lemma safeO_exOc5 : LeftSafe hOriginal.data exOc5.data := by decide

lemma cntO_exOc6 : countOcc hOriginal.data exOc6.data = 0 := by decide

lemma safeO_exOc6 : LeftSafe hOriginal.data exOc6.data := by decide

lemma cntO_exOc7 : countOcc hOriginal.data exOc7.data = 0 := by decide

lemma safeO_exOc7 : LeftSafe hOriginal.data exOc7.data := by decide

lemma cntO_seg2 : countOcc hOriginal.data seg2.data = 0 := by decide

lemma safeO_seg2 : LeftSafe hOriginal.data seg2.data := by decide

lemma cntO_exMc1 : countOcc hOriginal.data exMc1.data = 0 := by decide

lemma safeO_exMc1 : LeftSafe hOriginal.data exMc1.data := by decide

lemma cntO_exMc2 : countOcc hOriginal.data exMc2.data = 0 := by decide

lemma safeO_exMc2 : LeftSafe hOriginal.data exMc2.data := by decide

lemma cntO_exMc3 : countOcc hOriginal.data exMc3.data = 0 := by decide

lemma safeO_exMc3 : LeftSafe hOriginal.data exMc3.data := by decide

lemma cntO_exMc4 : countOcc hOriginal.data exMc4.data = 0 := by decide

lemma safeO_exMc4 : LeftSafe hOriginal.data exMc4.data := by decide

lemma cntO_exMc5 : countOcc hOriginal.data exMc5.data = 0 := by decide

lemma safeO_exMc5 : LeftSafe hOriginal.data exMc5.data := by decide

lemma cntO_exMc6 : countOcc hOriginal.data exMc6.data = 0 := by decide

lemma safeO_exMc6 : LeftSafe hOriginal.data exMc6.data := by decide

lemma cntO_exMc7 : countOcc hOriginal.data exMc7.data = 0 := by decide

lemma safeO_exMc7 : LeftSafe hOriginal.data exMc7.data := by decide

lemma cntO_exMc8 : countOcc hOriginal.data exMc8.data = 0 := by decide

lemma safeO_exMc8 : LeftSafe hOriginal.data exMc8.data := by decide

lemma cntO_seg3 : countOcc hOriginal.data seg3.data = 1 := by decide

lemma safeO_seg3 : LeftSafe hOriginal.data seg3.data := by decide

lemma cntO_chgc1 : countOcc hOriginal.data chgc1.data = 0 := by decide

lemma safeO_chgc1 : LeftSafe hOriginal.data chgc1.data := by decide

lemma cntO_chgc2 : countOcc hOriginal.data chgc2.data = 0 := by decide

lemma safeO_chgc2 : LeftSafe hOriginal.data chgc2.data := by decide

lemma cntO_chgc3 : countOcc hOriginal.data chgc3.data = 0 := by decide

lemma safeO_chgc3 : LeftSafe hOriginal.data chgc3.data := by decide

lemma cntO_chgc4 : countOcc hOriginal.data chgc4.data = 0 := by decide

lemma safeO_chgc4 : LeftSafe hOriginal.data chgc4.data := by decide

lemma cntO_chgc5 : countOcc hOriginal.data chgc5.data = 0 := by decide

lemma safeO_chgc5 : LeftSafe hOriginal.data chgc5.data := by decide

lemma cntO_seg4 : countOcc hOriginal.data seg4.data = 0 := by decide

lemma safeO_seg4 : LeftSafe hOriginal.data seg4.data := by decide

lemma cntO_seg5 : countOcc hOriginal.data seg5.data = 0 := by decide

lemma rsafeO_seg5 : RightSafe hOriginal.data seg5.data := by decide

lemma cntC_seg1 : countOcc hChanges.data seg1.data = 0 := by decide

lemma safeC_seg1 : LeftSafe hChanges.data seg1.data := by decide

lemma cntC_exOc1 : countOcc hChanges.data exOc1.data = 0 := by decide

lemma safeC_exOc1 : LeftSafe hChanges.data exOc1.data := by decide

lemma cntC_exOc2 : countOcc hChanges.data exOc2.data = 0 := by decide

lemma safeC_exOc2 : LeftSafe hChanges.data exOc2.data := by decide

lemma cntC_exOc3 : countOcc hChanges.data exOc3.data = 0 := by decide

lemma safeC_exOc3 : LeftSafe hChanges.data exOc3.data := by decide

lemma cntC_exOc4 : countOcc hChanges.data exOc4.data = 0 := by decide

lemma safeC_exOc4 : LeftSafe hChanges.data exOc4.data := by decide

lemma cntC_exOc5 : countOcc hChanges.data exOc5.data = 0 := by decide

lemma safeC_exOc5 : LeftSafe hChanges.data exOc5.data := by decide

lemma cntC_exOc6 : countOcc hChanges.data exOc6.data = 0 := by decide

lemma safeC_exOc6 : LeftSafe hChanges.data exOc6.data := by decide

lemma cntC_exOc7 : countOcc hChanges.data exOc7.data = 0 := by decide

lemma safeC_exOc7 : LeftSafe hChanges.data exOc7.data := by decide

lemma cntC_seg2 : countOcc hChanges.data seg2.data = 0 := by decide

lemma safeC_seg2 : LeftSafe hChanges.data seg2.data := by decide

lemma cntC_exMc1 : countOcc hChanges.data exMc1.data = 0 := by decide

lemma safeC_exMc1 : LeftSafe hChanges.data exMc1.data := by decide

lemma cntC_exMc2 : countOcc hChanges.data exMc2.data = 0 := by decide

lemma safeC_exMc2 : LeftSafe hChanges.data exMc2.data := by decide

lemma cntC_exMc3 : countOcc hChanges.data exMc3.data = 0 := by decide

lemma safeC_exMc3 : LeftSafe hChanges.data exMc3.data := by decide

lemma cntC_exMc4 : countOcc hChanges.data exMc4.data = 0 := by decide

lemma safeC_exMc4 : LeftSafe hChanges.data exMc4.data := by decide

lemma cntC_exMc5 : countOcc hChanges.data exMc5.data = 0 := by decide

lemma safeC_exMc5 : LeftSafe hChanges.data exMc5.data := by decide

lemma cntC_exMc6 : countOcc hChanges.data exMc6.data = 0 := by decide

lemma safeC_exMc6 : LeftSafe hChanges.data exMc6.data := by decide

lemma cntC_exMc7 : countOcc hChanges.data exMc7.data = 0 := by decide

lemma safeC_exMc7 : LeftSafe hChanges.data exMc7.data := by decide

lemma cntC_exMc8 : countOcc hChanges.data exMc8.data = 0 := by decide

lemma safeC_exMc8 : LeftSafe hChanges.data exMc8.data := by decide

lemma cntC_seg3 : countOcc hChanges.data seg3.data = 0 := by decide

lemma safeC_seg3 : LeftSafe hChanges.data seg3.data := by decide

lemma cntC_chgc1 : countOcc hChanges.data chgc1.data = 0 := by decide

lemma safeC_chgc1 : LeftSafe hChanges.data chgc1.data := by decide

lemma cntC_chgc2 : countOcc hChanges.data chgc2.data = 0 := by decide

lemma safeC_chgc2 : LeftSafe hChanges.data chgc2.data := by decide

lemma cntC_chgc3 : countOcc hChanges.data chgc3.data = 0 := by decide

lemma safeC_chgc3 : LeftSafe hChanges.data chgc3.data := by decide

lemma cntC_chgc4 : countOcc hChanges.data chgc4.data = 0 := by decide

lemma safeC_chgc4 : LeftSafe hChanges.data chgc4.data := by decide

lemma cntC_chgc5 : countOcc hChanges.data chgc5.data = 0 := by decide

lemma safeC_chgc5 : LeftSafe hChanges.data chgc5.data := by decide

lemma cntC_seg4 : countOcc hChanges.data seg4.data = 0 := by decide

lemma safeC_seg4 : LeftSafe hChanges.data seg4.data := by decide

lemma cntC_seg5 : countOcc hChanges.data seg5.data = 0 := by decide

lemma rsafeC_seg5 : RightSafe hChanges.data seg5.data := by decide


/-- the user prompt, flattened to the chunked concatenation -/
lemma user_prompt_chunks_data (T : String) :
    (build_user_prompt ex_original_text ex_modified_text changes_text T).data =
      (seg1.data ++ (exOc1.data ++ (exOc2.data ++ (exOc3.data ++ (exOc4.data ++ (exOc5.data ++ (exOc6.data ++ (exOc7.data ++ (seg2.data ++ (exMc1.data ++ (exMc2.data ++ (exMc3.data ++ (exMc4.data ++ (exMc5.data ++ (exMc6.data ++ (exMc7.data ++ (exMc8.data ++ (seg3.data ++ (chgc1.data ++ (chgc2.data ++ (chgc3.data ++ (chgc4.data ++ (chgc5.data ++ (seg4.data ++ (T.data ++ seg5.data))))))))))))))))))))))))) := by
  simp [build_user_prompt, ex_original_text, ex_modified_text, changes_text,
    String.data_append, List.append_assoc]


lemma countOcc_user_prompt_hO (T : String)
    (hT : countOcc hOriginal.data T.data = 0) :
    countOcc hOriginal.data (build_user_prompt ex_original_text ex_modified_text changes_text T).data = 2 := by
  rw [user_prompt_chunks_data]
  have h0 : countOcc hOriginal.data (T.data ++ seg5.data) = 0 := by
    rw [countOcc_append_of_rightSafe hOriginal.data T.data seg5.data rsafeO_seg5, hT, cntO_seg5]
  have h1 : countOcc hOriginal.data (seg4.data ++ (T.data ++ seg5.data)) = 0 := by
    rw [countOcc_append_of_leftSafe hOriginal.data seg4.data (T.data ++ seg5.data) safeO_seg4, cntO_seg4, h0]
  have h2 : countOcc hOriginal.data (chgc5.data ++ (seg4.data ++ (T.data ++ seg5.data))) = 0 := by
    rw [countOcc_append_of_leftSafe hOriginal.data chgc5.data (seg4.data ++ (T.data ++ seg5.data)) safeO_chgc5, cntO_chgc5, h1]
  have h3 : countOcc hOriginal.data (chgc4.data ++ (chgc5.data ++ (seg4.data ++ (T.data ++ seg5.data)))) = 0 := by
    rw [countOcc_append_of_leftSafe hOriginal.data chgc4.data (chgc5.data ++ (seg4.data ++ (T.data ++ seg5.data))) safeO_chgc4, cntO_chgc4, h2]
  have h4 : countOcc hOriginal.data (chgc3.data ++ (chgc4.data ++ (chgc5.data ++ (seg4.data ++ (T.data ++ seg5.data))))) = 0 := by
    rw [countOcc_append_of_leftSafe hOriginal.data chgc3.data (chgc4.data ++ (chgc5.data ++ (seg4.data ++ (T.data ++ seg5.data)))) safeO_chgc3, cntO_chgc3, h3]
  have h5 : countOcc hOriginal.data (chgc2.data ++ (chgc3.data ++ (chgc4.data ++ (chgc5.data ++ (seg4.data ++ (T.data ++ seg5.data)))))) = 0 := by
    rw [countOcc_append_of_leftSafe hOriginal.data chgc2.data (chgc3.data ++ (chgc4.data ++ (chgc5.data ++ (seg4.data ++ (T.data ++ seg5.data))))) safeO_chgc2, cntO_chgc2, h4]
  have h6 : countOcc hOriginal.data (chgc1.data ++ (chgc2.data ++ (chgc3.data ++ (chgc4.data ++ (chgc5.data ++ (seg4.data ++ (T.data ++ seg5.data))))))) = 0 := by
    rw [countOcc_append_of_leftSafe hOriginal.data chgc1.data (chgc2.data ++ (chgc3.data ++ (chgc4.data ++ (chgc5.data ++ (seg4.data ++ (T.data ++ seg5.data)))))) safeO_chgc1, cntO_chgc1, h5]
  have h7 : countOcc hOriginal.data (seg3.data ++ (chgc1.data ++ (chgc2.data ++ (chgc3.data ++ (chgc4.data ++ (chgc5.data ++ (seg4.data ++ (T.data ++ seg5.data)))))))) = 1 := by
    rw [countOcc_append_of_leftSafe hOriginal.data seg3.data (chgc1.data ++ (chgc2.data ++ (chgc3.data ++ (chgc4.data ++ (chgc5.data ++ (seg4.data ++ (T.data ++ seg5.data))))))) safeO_seg3, cntO_seg3, h6]
  have h8 : countOcc hOriginal.data (exMc8.data ++ (seg3.data ++ (chgc1.data ++ (chgc2.data ++ (chgc3.data ++ (chgc4.data ++ (chgc5.data ++ (seg4.data ++ (T.data ++ seg5.data))))))))) = 1 := by
    rw [countOcc_append_of_leftSafe hOriginal.data exMc8.data (seg3.data ++ (chgc1.data ++ (chgc2.data ++ (chgc3.data ++ (chgc4.data ++ (chgc5.data ++ (seg4.data ++ (T.data ++ seg5.data)))))))) safeO_exMc8, cntO_exMc8, h7]
  have h9 : countOcc hOriginal.data (exMc7.data ++ (exMc8.data ++ (seg3.data ++ (chgc1.data ++ (chgc2.data ++ (chgc3.data ++ (chgc4.data ++ (chgc5.data ++ (seg4.data ++ (T.data ++ seg5.data)))))))))) = 1 := by
    rw [countOcc_append_of_leftSafe hOriginal.data exMc7.data (exMc8.data ++ (seg3.data ++ (chgc1.data ++ (chgc2.data ++ (chgc3.data ++ (chgc4.data ++ (chgc5.data ++ (seg4.data ++ (T.data ++ seg5.data))))))))) safeO_exMc7, cntO_exMc7, h8]
  have h10 : countOcc hOriginal.data (exMc6.data ++ (exMc7.data ++ (exMc8.data ++ (seg3.data ++ (chgc1.data ++ (chgc2.data ++ (chgc3.data ++ (chgc4.data ++ (chgc5.data ++ (seg4.data ++ (T.data ++ seg5.data))))))))))) = 1 := by
    rw [countOcc_append_of_leftSafe hOriginal.data exMc6.data (exMc7.data ++ (exMc8.data ++ (seg3.data ++ (chgc1.data ++ (chgc2.data ++ (chgc3.data ++ (chgc4.data ++ (chgc5.data ++ (seg4.data ++ (T.data ++ seg5.data)))))))))) safeO_exMc6, cntO_exMc6, h9]
  have h11 : countOcc hOriginal.data (exMc5.data ++ (exMc6.data ++ (exMc7.data ++ (exMc8.data ++ (seg3.data ++ (chgc1.data ++ (chgc2.data ++ (chgc3.data ++ (chgc4.data ++ (chgc5.data ++ (seg4.data ++ (T.data ++ seg5.data)))))))))))) = 1 := by
    rw [countOcc_append_of_leftSafe hOriginal.data exMc5.data (exMc6.data ++ (exMc7.data ++ (exMc8.data ++ (seg3.data ++ (chgc1.data ++ (chgc2.data ++ (chgc3.data ++ (chgc4.data ++ (chgc5.data ++ (seg4.data ++ (T.data ++ seg5.data))))))))))) safeO_exMc5, cntO_exMc5, h10]
  have h12 : countOcc hOriginal.data (exMc4.data ++ (exMc5.data ++ (exMc6.data ++ (exMc7.data ++ (exMc8.data ++ (seg3.data ++ (chgc1.data ++ (chgc2.data ++ (chgc3.data ++ (chgc4.data ++ (chgc5.data ++ (seg4.data ++ (T.data ++ seg5.data))))))))))))) = 1 := by
    rw [countOcc_append_of_leftSafe hOriginal.data exMc4.data (exMc5.data ++ (exMc6.data ++ (exMc7.data ++ (exMc8.data ++ (seg3.data ++ (chgc1.data ++ (chgc2.data ++ (chgc3.data ++ (chgc4.data ++ (chgc5.data ++ (seg4.data ++ (T.data ++ seg5.data)))))))))))) safeO_exMc4, cntO_exMc4, h11]
  have h13 : countOcc hOriginal.data (exMc3.data ++ (exMc4.data ++ (exMc5.data ++ (exMc6.data ++ (exMc7.data ++ (exMc8.data ++ (seg3.data ++ (chgc1.data ++ (chgc2.data ++ (chgc3.data ++ (chgc4.data ++ (chgc5.data ++ (seg4.data ++ (T.data ++ seg5.data)))))))))))))) = 1 := by
    rw [countOcc_append_of_leftSafe hOriginal.data exMc3.data (exMc4.data ++ (exMc5.data ++ (exMc6.data ++ (exMc7.data ++ (exMc8.data ++ (seg3.data ++ (chgc1.data ++ (chgc2.data ++ (chgc3.data ++ (chgc4.data ++ (chgc5.data ++ (seg4.data ++ (T.data ++ seg5.data))))))))))))) safeO_exMc3, cntO_exMc3, h12]
  have h14 : countOcc hOriginal.data (exMc2.data ++ (exMc3.data ++ (exMc4.data ++ (exMc5.data ++ (exMc6.data ++ (exMc7.data ++ (exMc8.data ++ (seg3.data ++ (chgc1.data ++ (chgc2.data ++ (chgc3.data ++ (chgc4.data ++ (chgc5.data ++ (seg4.data ++ (T.data ++ seg5.data))))))))))))))) = 1 := by
    rw [countOcc_append_of_leftSafe hOriginal.data exMc2.data (exMc3.data ++ (exMc4.data ++ (exMc5.data ++ (exMc6.data ++ (exMc7.data ++ (exMc8.data ++ (seg3.data ++ (chgc1.data ++ (chgc2.data ++ (chgc3.data ++ (chgc4.data ++ (chgc5.data ++ (seg4.data ++ (T.data ++ seg5.data)))))))))))))) safeO_exMc2, cntO_exMc2, h13]
  have h15 : countOcc hOriginal.data (exMc1.data ++ (exMc2.data ++ (exMc3.data ++ (exMc4.data ++ (exMc5.data ++ (exMc6.data ++ (exMc7.data ++ (exMc8.data ++ (seg3.data ++ (chgc1.data ++ (chgc2.data ++ (chgc3.data ++ (chgc4.data ++ (chgc5.data ++ (seg4.data ++ (T.data ++ seg5.data)))))))))))))))) = 1 := by
    rw [countOcc_append_of_leftSafe hOriginal.data exMc1.data (exMc2.data ++ (exMc3.data ++ (exMc4.data ++ (exMc5.data ++ (exMc6.data ++ (exMc7.data ++ (exMc8.data ++ (seg3.data ++ (chgc1.data ++ (chgc2.data ++ (chgc3.data ++ (chgc4.data ++ (chgc5.data ++ (seg4.data ++ (T.data ++ seg5.data))))))))))))))) safeO_exMc1, cntO_exMc1, h14]
  have h16 : countOcc hOriginal.data (seg2.data ++ (exMc1.data ++ (exMc2.data ++ (exMc3.data ++ (exMc4.data ++ (exMc5.data ++ (exMc6.data ++ (exMc7.data ++ (exMc8.data ++ (seg3.data ++ (chgc1.data ++ (chgc2.data ++ (chgc3.data ++ (chgc4.data ++ (chgc5.data ++ (seg4.data ++ (T.data ++ seg5.data))))))))))))))))) = 1 := by
    rw [countOcc_append_of_leftSafe hOriginal.data seg2.data (exMc1.data ++ (exMc2.data ++ (exMc3.data ++ (exMc4.data ++ (exMc5.data ++ (exMc6.data ++ (exMc7.data ++ (exMc8.data ++ (seg3.data ++ (chgc1.data ++ (chgc2.data ++ (chgc3.data ++ (chgc4.data ++ (chgc5.data ++ (seg4.data ++ (T.data ++ seg5.data)))))))))))))))) safeO_seg2, cntO_seg2, h15]
  have h17 : countOcc hOriginal.data (exOc7.data ++ (seg2.data ++ (exMc1.data ++ (exMc2.data ++ (exMc3.data ++ (exMc4.data ++ (exMc5.data ++ (exMc6.data ++ (exMc7.data ++ (exMc8.data ++ (seg3.data ++ (chgc1.data ++ (chgc2.data ++ (chgc3.data ++ (chgc4.data ++ (chgc5.data ++ (seg4.data ++ (T.data ++ seg5.data)))))))))))))))))) = 1 := by
    rw [countOcc_append_of_leftSafe hOriginal.data exOc7.data (seg2.data ++ (exMc1.data ++ (exMc2.data ++ (exMc3.data ++ (exMc4.data ++ (exMc5.data ++ (exMc6.data ++ (exMc7.data ++ (exMc8.data ++ (seg3.data ++ (chgc1.data ++ (chgc2.data ++ (chgc3.data ++ (chgc4.data ++ (chgc5.data ++ (seg4.data ++ (T.data ++ seg5.data))))))))))))))))) safeO_exOc7, cntO_exOc7, h16]
  have h18 : countOcc hOriginal.data (exOc6.data ++ (exOc7.data ++ (seg2.data ++ (exMc1.data ++ (exMc2.data ++ (exMc3.data ++ (exMc4.data ++ (exMc5.data ++ (exMc6.data ++ (exMc7.data ++ (exMc8.data ++ (seg3.data ++ (chgc1.data ++ (chgc2.data ++ (chgc3.data ++ (chgc4.data ++ (chgc5.data ++ (seg4.data ++ (T.data ++ seg5.data))))))))))))))))))) = 1 := by
    rw [countOcc_append_of_leftSafe hOriginal.data exOc6.data (exOc7.data ++ (seg2.data ++ (exMc1.data ++ (exMc2.data ++ (exMc3.data ++ (exMc4.data ++ (exMc5.data ++ (exMc6.data ++ (exMc7.data ++ (exMc8.data ++ (seg3.data ++ (chgc1.data ++ (chgc2.data ++ (chgc3.data ++ (chgc4.data ++ (chgc5.data ++ (seg4.data ++ (T.data ++ seg5.data)))))))))))))))))) safeO_exOc6, cntO_exOc6, h17]
  have h19 : countOcc hOriginal.data (exOc5.data ++ (exOc6.data ++ (exOc7.data ++ (seg2.data ++ (exMc1.data ++ (exMc2.data ++ (exMc3.data ++ (exMc4.data ++ (exMc5.data ++ (exMc6.data ++ (exMc7.data ++ (exMc8.data ++ (seg3.data ++ (chgc1.data ++ (chgc2.data ++ (chgc3.data ++ (chgc4.data ++ (chgc5.data ++ (seg4.data ++ (T.data ++ seg5.data)))))))))))))))))))) = 1 := by
    rw [countOcc_append_of_leftSafe hOriginal.data exOc5.data (exOc6.data ++ (exOc7.data ++ (seg2.data ++ (exMc1.data ++ (exMc2.data ++ (exMc3.data ++ (exMc4.data ++ (exMc5.data ++ (exMc6.data ++ (exMc7.data ++ (exMc8.data ++ (seg3.data ++ (chgc1.data ++ (chgc2.data ++ (chgc3.data ++ (chgc4.data ++ (chgc5.data ++ (seg4.data ++ (T.data ++ seg5.data))))))))))))))))))) safeO_exOc5, cntO_exOc5, h18]
  have h20 : countOcc hOriginal.data (exOc4.data ++ (exOc5.data ++ (exOc6.data ++ (exOc7.data ++ (seg2.data ++ (exMc1.data ++ (exMc2.data ++ (exMc3.data ++ (exMc4.data ++ (exMc5.data ++ (exMc6.data ++ (exMc7.data ++ (exMc8.data ++ (seg3.data ++ (chgc1.data ++ (chgc2.data ++ (chgc3.data ++ (chgc4.data ++ (chgc5.data ++ (seg4.data ++ (T.data ++ seg5.data))))))))))))))))))))) = 1 := by
    rw [countOcc_append_of_leftSafe hOriginal.data exOc4.data (exOc5.data ++ (exOc6.data ++ (exOc7.data ++ (seg2.data ++ (exMc1.data ++ (exMc2.data ++ (exMc3.data ++ (exMc4.data ++ (exMc5.data ++ (exMc6.data ++ (exMc7.data ++ (exMc8.data ++ (seg3.data ++ (chgc1.data ++ (chgc2.data ++ (chgc3.data ++ (chgc4.data ++ (chgc5.data ++ (seg4.data ++ (T.data ++ seg5.data)))))))))))))))))))) safeO_exOc4, cntO_exOc4, h19]
  have h21 : countOcc hOriginal.data (exOc3.data ++ (exOc4.data ++ (exOc5.data ++ (exOc6.data ++ (exOc7.data ++ (seg2.data ++ (exMc1.data ++ (exMc2.data ++ (exMc3.data ++ (exMc4.data ++ (exMc5.data ++ (exMc6.data ++ (exMc7.data ++ (exMc8.data ++ (seg3.data ++ (chgc1.data ++ (chgc2.data ++ (chgc3.data ++ (chgc4.data ++ (chgc5.data ++ (seg4.data ++ (T.data ++ seg5.data)))))))))))))))))))))) = 1 := by
    rw [countOcc_append_of_leftSafe hOriginal.data exOc3.data (exOc4.data ++ (exOc5.data ++ (exOc6.data ++ (exOc7.data ++ (seg2.data ++ (exMc1.data ++ (exMc2.data ++ (exMc3.data ++ (exMc4.data ++ (exMc5.data ++ (exMc6.data ++ (exMc7.data ++ (exMc8.data ++ (seg3.data ++ (chgc1.data ++ (chgc2.data ++ (chgc3.data ++ (chgc4.data ++ (chgc5.data ++ (seg4.data ++ (T.data ++ seg5.data))))))))))))))))))))) safeO_exOc3, cntO_exOc3, h20]
  have h22 : countOcc hOriginal.data (exOc2.data ++ (exOc3.data ++ (exOc4.data ++ (exOc5.data ++ (exOc6.data ++ (exOc7.data ++ (seg2.data ++ (exMc1.data ++ (exMc2.data ++ (exMc3.data ++ (exMc4.data ++ (exMc5.data ++ (exMc6.data ++ (exMc7.data ++ (exMc8.data ++ (seg3.data ++ (chgc1.data ++ (chgc2.data ++ (chgc3.data ++ (chgc4.data ++ (chgc5.data ++ (seg4.data ++ (T.data ++ seg5.data))))))))))))))))))))))) = 1 := by
    rw [countOcc_append_of_leftSafe hOriginal.data exOc2.data (exOc3.data ++ (exOc4.data ++ (exOc5.data ++ (exOc6.data ++ (exOc7.data ++ (seg2.data ++ (exMc1.data ++ (exMc2.data ++ (exMc3.data ++ (exMc4.data ++ (exMc5.data ++ (exMc6.data ++ (exMc7.data ++ (exMc8.data ++ (seg3.data ++ (chgc1.data ++ (chgc2.data ++ (chgc3.data ++ (chgc4.data ++ (chgc5.data ++ (seg4.data ++ (T.data ++ seg5.data)))))))))))))))))))))) safeO_exOc2, cntO_exOc2, h21]
  have h23 : countOcc hOriginal.data (exOc1.data ++ (exOc2.data ++ (exOc3.data ++ (exOc4.data ++ (exOc5.data ++ (exOc6.data ++ (exOc7.data ++ (seg2.data ++ (exMc1.data ++ (exMc2.data ++ (exMc3.data ++ (exMc4.data ++ (exMc5.data ++ (exMc6.data ++ (exMc7.data ++ (exMc8.data ++ (seg3.data ++ (chgc1.data ++ (chgc2.data ++ (chgc3.data ++ (chgc4.data ++ (chgc5.data ++ (seg4.data ++ (T.data ++ seg5.data)))))))))))))))))))))))) = 1 := by
    rw [countOcc_append_of_leftSafe hOriginal.data exOc1.data (exOc2.data ++ (exOc3.data ++ (exOc4.data ++ (exOc5.data ++ (exOc6.data ++ (exOc7.data ++ (seg2.data ++ (exMc1.data ++ (exMc2.data ++ (exMc3.data ++ (exMc4.data ++ (exMc5.data ++ (exMc6.data ++ (exMc7.data ++ (exMc8.data ++ (seg3.data ++ (chgc1.data ++ (chgc2.data ++ (chgc3.data ++ (chgc4.data ++ (chgc5.data ++ (seg4.data ++ (T.data ++ seg5.data))))))))))))))))))))))) safeO_exOc1, cntO_exOc1, h22]
  have h24 : countOcc hOriginal.data (seg1.data ++ (exOc1.data ++ (exOc2.data ++ (exOc3.data ++ (exOc4.data ++ (exOc5.data ++ (exOc6.data ++ (exOc7.data ++ (seg2.data ++ (exMc1.data ++ (exMc2.data ++ (exMc3.data ++ (exMc4.data ++ (exMc5.data ++ (exMc6.data ++ (exMc7.data ++ (exMc8.data ++ (seg3.data ++ (chgc1.data ++ (chgc2.data ++ (chgc3.data ++ (chgc4.data ++ (chgc5.data ++ (seg4.data ++ (T.data ++ seg5.data))))))))))))))))))))))))) = 2 := by
    rw [countOcc_append_of_leftSafe hOriginal.data seg1.data (exOc1.data ++ (exOc2.data ++ (exOc3.data ++ (exOc4.data ++ (exOc5.data ++ (exOc6.data ++ (exOc7.data ++ (seg2.data ++ (exMc1.data ++ (exMc2.data ++ (exMc3.data ++ (exMc4.data ++ (exMc5.data ++ (exMc6.data ++ (exMc7.data ++ (exMc8.data ++ (seg3.data ++ (chgc1.data ++ (chgc2.data ++ (chgc3.data ++ (chgc4.data ++ (chgc5.data ++ (seg4.data ++ (T.data ++ seg5.data)))))))))))))))))))))))) safeO_seg1, cntO_seg1, h23]
  exact h24

lemma countOcc_user_prompt_hC (T : String)
    (hT : countOcc hChanges.data T.data = 0) :
    countOcc hChanges.data (build_user_prompt ex_original_text ex_modified_text changes_text T).data = 0 := by
  rw [user_prompt_chunks_data]
  have h0 : countOcc hChanges.data (T.data ++ seg5.data) = 0 := by
    rw [countOcc_append_of_rightSafe hChanges.data T.data seg5.data rsafeC_seg5, hT, cntC_seg5]
  have h1 : countOcc hChanges.data (seg4.data ++ (T.data ++ seg5.data)) = 0 := by
    rw [countOcc_append_of_leftSafe hChanges.data seg4.data (T.data ++ seg5.data) safeC_seg4, cntC_seg4, h0]
  have h2 : countOcc hChanges.data (chgc5.data ++ (seg4.data ++ (T.data ++ seg5.data))) = 0 := by
    rw [countOcc_append_of_leftSafe hChanges.data chgc5.data (seg4.data ++ (T.data ++ seg5.data)) safeC_chgc5, cntC_chgc5, h1]
  have h3 : countOcc hChanges.data (chgc4.data ++ (chgc5.data ++ (seg4.data ++ (T.data ++ seg5.data)))) = 0 := by
    rw [countOcc_append_of_leftSafe hChanges.data chgc4.data (chgc5.data ++ (seg4.data ++ (T.data ++ seg5.data))) safeC_chgc4, cntC_chgc4, h2]
  have h4 : countOcc hChanges.data (chgc3.data ++ (chgc4.data ++ (chgc5.data ++ (seg4.data ++ (T.data ++ seg5.data))))) = 0 := by
    rw [countOcc_append_of_leftSafe hChanges.data chgc3.data (chgc4.data ++ (chgc5.data ++ (seg4.data ++ (T.data ++ seg5.data)))) safeC_chgc3, cntC_chgc3, h3]
  have h5 : countOcc hChanges.data (chgc2.data ++ (chgc3.data ++ (chgc4.data ++ (chgc5.data ++ (seg4.data ++ (T.data ++ seg5.data)))))) = 0 := by
    rw [countOcc_append_of_leftSafe hChanges.data chgc2.data (chgc3.data ++ (chgc4.data ++ (chgc5.data ++ (seg4.data ++ (T.data ++ seg5.data))))) safeC_chgc2, cntC_chgc2, h4]
  have h6 : countOcc hChanges.data (chgc1.data ++ (chgc2.data ++ (chgc3.data ++ (chgc4.data ++ (chgc5.data ++ (seg4.data ++ (T.data ++ seg5.data))))))) = 0 := by
    rw [countOcc_append_of_leftSafe hChanges.data chgc1.data (chgc2.data ++ (chgc3.data ++ (chgc4.data ++ (chgc5.data ++ (seg4.data ++ (T.data ++ seg5.data)))))) safeC_chgc1, cntC_chgc1, h5]
  have h7 : countOcc hChanges.data (seg3.data ++ (chgc1.data ++ (chgc2.data ++ (chgc3.data ++ (chgc4.data ++ (chgc5.data ++ (seg4.data ++ (T.data ++ seg5.data)))))))) = 0 := by
    rw [countOcc_append_of_leftSafe hChanges.data seg3.data (chgc1.data ++ (chgc2.data ++ (chgc3.data ++ (chgc4.data ++ (chgc5.data ++ (seg4.data ++ (T.data ++ seg5.data))))))) safeC_seg3, cntC_seg3, h6]
  have h8 : countOcc hChanges.data (exMc8.data ++ (seg3.data ++ (chgc1.data ++ (chgc2.data ++ (chgc3.data ++ (chgc4.data ++ (chgc5.data ++ (seg4.data ++ (T.data ++ seg5.data))))))))) = 0 := by
    rw [countOcc_append_of_leftSafe hChanges.data exMc8.data (seg3.data ++ (chgc1.data ++ (chgc2.data ++ (chgc3.data ++ (chgc4.data ++ (chgc5.data ++ (seg4.data ++ (T.data ++ seg5.data)))))))) safeC_exMc8, cntC_exMc8, h7]
  have h9 : countOcc hChanges.data (exMc7.data ++ (exMc8.data ++ (seg3.data ++ (chgc1.data ++ (chgc2.data ++ (chgc3.data ++ (chgc4.data ++ (chgc5.data ++ (seg4.data ++ (T.data ++ seg5.data)))))))))) = 0 := by
    rw [countOcc_append_of_leftSafe hChanges.data exMc7.data (exMc8.data ++ (seg3.data ++ (chgc1.data ++ (chgc2.data ++ (chgc3.data ++ (chgc4.data ++ (chgc5.data ++ (seg4.data ++ (T.data ++ seg5.data))))))))) safeC_exMc7, cntC_exMc7, h8]
  have h10 : countOcc hChanges.data (exMc6.data ++ (exMc7.data ++ (exMc8.data ++ (seg3.data ++ (chgc1.data ++ (chgc2.data ++ (chgc3.data ++ (chgc4.data ++ (chgc5.data ++ (seg4.data ++ (T.data ++ seg5.data))))))))))) = 0 := by
    rw [countOcc_append_of_leftSafe hChanges.data exMc6.data (exMc7.data ++ (exMc8.data ++ (seg3.data ++ (chgc1.data ++ (chgc2.data ++ (chgc3.data ++ (chgc4.data ++ (chgc5.data ++ (seg4.data ++ (T.data ++ seg5.data)))))))))) safeC_exMc6, cntC_exMc6, h9]
  have h11 : countOcc hChanges.data (exMc5.data ++ (exMc6.data ++ (exMc7.data ++ (exMc8.data ++ (seg3.data ++ (chgc1.data ++ (chgc2.data ++ (chgc3.data ++ (chgc4.data ++ (chgc5.data ++ (seg4.data ++ (T.data ++ seg5.data)))))))))))) = 0 := by
    rw [countOcc_append_of_leftSafe hChanges.data exMc5.data (exMc6.data ++ (exMc7.data ++ (exMc8.data ++ (seg3.data ++ (chgc1.data ++ (chgc2.data ++ (chgc3.data ++ (chgc4.data ++ (chgc5.data ++ (seg4.data ++ (T.data ++ seg5.data))))))))))) safeC_exMc5, cntC_exMc5, h10]
  have h12 : countOcc hChanges.data (exMc4.data ++ (exMc5.data ++ (exMc6.data ++ (exMc7.data ++ (exMc8.data ++ (seg3.data ++ (chgc1.data ++ (chgc2.data ++ (chgc3.data ++ (chgc4.data ++ (chgc5.data ++ (seg4.data ++ (T.data ++ seg5.data))))))))))))) = 0 := by
    rw [countOcc_append_of_leftSafe hChanges.data exMc4.data (exMc5.data ++ (exMc6.data ++ (exMc7.data ++ (exMc8.data ++ (seg3.data ++ (chgc1.data ++ (chgc2.data ++ (chgc3.data ++ (chgc4.data ++ (chgc5.data ++ (seg4.data ++ (T.data ++ seg5.data)))))))))))) safeC_exMc4, cntC_exMc4, h11]
  have h13 : countOcc hChanges.data (exMc3.data ++ (exMc4.data ++ (exMc5.data ++ (exMc6.data ++ (exMc7.data ++ (exMc8.data ++ (seg3.data ++ (chgc1.data ++ (chgc2.data ++ (chgc3.data ++ (chgc4.data ++ (chgc5.data ++ (seg4.data ++ (T.data ++ seg5.data)))))))))))))) = 0 := by
    rw [countOcc_append_of_leftSafe hChanges.data exMc3.data (exMc4.data ++ (exMc5.data ++ (exMc6.data ++ (exMc7.data ++ (exMc8.data ++ (seg3.data ++ (chgc1.data ++ (chgc2.data ++ (chgc3.data ++ (chgc4.data ++ (chgc5.data ++ (seg4.data ++ (T.data ++ seg5.data))))))))))))) safeC_exMc3, cntC_exMc3, h12]
  have h14 : countOcc hChanges.data (exMc2.data ++ (exMc3.data ++ (exMc4.data ++ (exMc5.data ++ (exMc6.data ++ (exMc7.data ++ (exMc8.data ++ (seg3.data ++ (chgc1.data ++ (chgc2.data ++ (chgc3.data ++ (chgc4.data ++ (chgc5.data ++ (seg4.data ++ (T.data ++ seg5.data))))))))))))))) = 0 := by
    rw [countOcc_append_of_leftSafe hChanges.data exMc2.data (exMc3.data ++ (exMc4.data ++ (exMc5.data ++ (exMc6.data ++ (exMc7.data ++ (exMc8.data ++ (seg3.data ++ (chgc1.data ++ (chgc2.data ++ (chgc3.data ++ (chgc4.data ++ (chgc5.data ++ (seg4.data ++ (T.data ++ seg5.data)))))))))))))) safeC_exMc2, cntC_exMc2, h13]
  have h15 : countOcc hChanges.data (exMc1.data ++ (exMc2.data ++ (exMc3.data ++ (exMc4.data ++ (exMc5.data ++ (exMc6.data ++ (exMc7.data ++ (exMc8.data ++ (seg3.data ++ (chgc1.data ++ (chgc2.data ++ (chgc3.data ++ (chgc4.data ++ (chgc5.data ++ (seg4.data ++ (T.data ++ seg5.data)))))))))))))))) = 0 := by
    rw [countOcc_append_of_leftSafe hChanges.data exMc1.data (exMc2.data ++ (exMc3.data ++ (exMc4.data ++ (exMc5.data ++ (exMc6.data ++ (exMc7.data ++ (exMc8.data ++ (seg3.data ++ (chgc1.data ++ (chgc2.data ++ (chgc3.data ++ (chgc4.data ++ (chgc5.data ++ (seg4.data ++ (T.data ++ seg5.data))))))))))))))) safeC_exMc1, cntC_exMc1, h14]
  have h16 : countOcc hChanges.data (seg2.data ++ (exMc1.data ++ (exMc2.data ++ (exMc3.data ++ (exMc4.data ++ (exMc5.data ++ (exMc6.data ++ (exMc7.data ++ (exMc8.data ++ (seg3.data ++ (chgc1.data ++ (chgc2.data ++ (chgc3.data ++ (chgc4.data ++ (chgc5.data ++ (seg4.data ++ (T.data ++ seg5.data))))))))))))))))) = 0 := by
    rw [countOcc_append_of_leftSafe hChanges.data seg2.data (exMc1.data ++ (exMc2.data ++ (exMc3.data ++ (exMc4.data ++ (exMc5.data ++ (exMc6.data ++ (exMc7.data ++ (exMc8.data ++ (seg3.data ++ (chgc1.data ++ (chgc2.data ++ (chgc3.data ++ (chgc4.data ++ (chgc5.data ++ (seg4.data ++ (T.data ++ seg5.data)))))))))))))))) safeC_seg2, cntC_seg2, h15]
  have h17 : countOcc hChanges.data (exOc7.data ++ (seg2.data ++ (exMc1.data ++ (exMc2.data ++ (exMc3.data ++ (exMc4.data ++ (exMc5.data ++ (exMc6.data ++ (exMc7.data ++ (exMc8.data ++ (seg3.data ++ (chgc1.data ++ (chgc2.data ++ (chgc3.data ++ (chgc4.data ++ (chgc5.data ++ (seg4.data ++ (T.data ++ seg5.data)))))))))))))))))) = 0 := by
    rw [countOcc_append_of_leftSafe hChanges.data exOc7.data (seg2.data ++ (exMc1.data ++ (exMc2.data ++ (exMc3.data ++ (exMc4.data ++ (exMc5.data ++ (exMc6.data ++ (exMc7.data ++ (exMc8.data ++ (seg3.data ++ (chgc1.data ++ (chgc2.data ++ (chgc3.data ++ (chgc4.data ++ (chgc5.data ++ (seg4.data ++ (T.data ++ seg5.data))))))))))))))))) safeC_exOc7, cntC_exOc7, h16]
  have h18 : countOcc hChanges.data (exOc6.data ++ (exOc7.data ++ (seg2.data ++ (exMc1.data ++ (exMc2.data ++ (exMc3.data ++ (exMc4.data ++ (exMc5.data ++ (exMc6.data ++ (exMc7.data ++ (exMc8.data ++ (seg3.data ++ (chgc1.data ++ (chgc2.data ++ (chgc3.data ++ (chgc4.data ++ (chgc5.data ++ (seg4.data ++ (T.data ++ seg5.data))))))))))))))))))) = 0 := by
    rw [countOcc_append_of_leftSafe hChanges.data exOc6.data (exOc7.data ++ (seg2.data ++ (exMc1.data ++ (exMc2.data ++ (exMc3.data ++ (exMc4.data ++ (exMc5.data ++ (exMc6.data ++ (exMc7.data ++ (exMc8.data ++ (seg3.data ++ (chgc1.data ++ (chgc2.data ++ (chgc3.data ++ (chgc4.data ++ (chgc5.data ++ (seg4.data ++ (T.data ++ seg5.data)))))))))))))))))) safeC_exOc6, cntC_exOc6, h17]
  have h19 : countOcc hChanges.data (exOc5.data ++ (exOc6.data ++ (exOc7.data ++ (seg2.data ++ (exMc1.data ++ (exMc2.data ++ (exMc3.data ++ (exMc4.data ++ (exMc5.data ++ (exMc6.data ++ (exMc7.data ++ (exMc8.data ++ (seg3.data ++ (chgc1.data ++ (chgc2.data ++ (chgc3.data ++ (chgc4.data ++ (chgc5.data ++ (seg4.data ++ (T.data ++ seg5.data)))))))))))))))))))) = 0 := by
    rw [countOcc_append_of_leftSafe hChanges.data exOc5.data (exOc6.data ++ (exOc7.data ++ (seg2.data ++ (exMc1.data ++ (exMc2.data ++ (exMc3.data ++ (exMc4.data ++ (exMc5.data ++ (exMc6.data ++ (exMc7.data ++ (exMc8.data ++ (seg3.data ++ (chgc1.data ++ (chgc2.data ++ (chgc3.data ++ (chgc4.data ++ (chgc5.data ++ (seg4.data ++ (T.data ++ seg5.data))))))))))))))))))) safeC_exOc5, cntC_exOc5, h18]
  have h20 : countOcc hChanges.data (exOc4.data ++ (exOc5.data ++ (exOc6.data ++ (exOc7.data ++ (seg2.data ++ (exMc1.data ++ (exMc2.data ++ (exMc3.data ++ (exMc4.data ++ (exMc5.data ++ (exMc6.data ++ (exMc7.data ++ (exMc8.data ++ (seg3.data ++ (chgc1.data ++ (chgc2.data ++ (chgc3.data ++ (chgc4.data ++ (chgc5.data ++ (seg4.data ++ (T.data ++ seg5.data))))))))))))))))))))) = 0 := by
    rw [countOcc_append_of_leftSafe hChanges.data exOc4.data (exOc5.data ++ (exOc6.data ++ (exOc7.data ++ (seg2.data ++ (exMc1.data ++ (exMc2.data ++ (exMc3.data ++ (exMc4.data ++ (exMc5.data ++ (exMc6.data ++ (exMc7.data ++ (exMc8.data ++ (seg3.data ++ (chgc1.data ++ (chgc2.data ++ (chgc3.data ++ (chgc4.data ++ (chgc5.data ++ (seg4.data ++ (T.data ++ seg5.data)))))))))))))))))))) safeC_exOc4, cntC_exOc4, h19]
  have h21 : countOcc hChanges.data (exOc3.data ++ (exOc4.data ++ (exOc5.data ++ (exOc6.data ++ (exOc7.data ++ (seg2.data ++ (exMc1.data ++ (exMc2.data ++ (exMc3.data ++ (exMc4.data ++ (exMc5.data ++ (exMc6.data ++ (exMc7.data ++ (exMc8.data ++ (seg3.data ++ (chgc1.data ++ (chgc2.data ++ (chgc3.data ++ (chgc4.data ++ (chgc5.data ++ (seg4.data ++ (T.data ++ seg5.data)))))))))))))))))))))) = 0 := by
    rw [countOcc_append_of_leftSafe hChanges.data exOc3.data (exOc4.data ++ (exOc5.data ++ (exOc6.data ++ (exOc7.data ++ (seg2.data ++ (exMc1.data ++ (exMc2.data ++ (exMc3.data ++ (exMc4.data ++ (exMc5.data ++ (exMc6.data ++ (exMc7.data ++ (exMc8.data ++ (seg3.data ++ (chgc1.data ++ (chgc2.data ++ (chgc3.data ++ (chgc4.data ++ (chgc5.data ++ (seg4.data ++ (T.data ++ seg5.data))))))))))))))))))))) safeC_exOc3, cntC_exOc3, h20]
  have h22 : countOcc hChanges.data (exOc2.data ++ (exOc3.data ++ (exOc4.data ++ (exOc5.data ++ (exOc6.data ++ (exOc7.data ++ (seg2.data ++ (exMc1.data ++ (exMc2.data ++ (exMc3.data ++ (exMc4.data ++ (exMc5.data ++ (exMc6.data ++ (exMc7.data ++ (exMc8.data ++ (seg3.data ++ (chgc1.data ++ (chgc2.data ++ (chgc3.data ++ (chgc4.data ++ (chgc5.data ++ (seg4.data ++ (T.data ++ seg5.data))))))))))))))))))))))) = 0 := by
    rw [countOcc_append_of_leftSafe hChanges.data exOc2.data (exOc3.data ++ (exOc4.data ++ (exOc5.data ++ (exOc6.data ++ (exOc7.data ++ (seg2.data ++ (exMc1.data ++ (exMc2.data ++ (exMc3.data ++ (exMc4.data ++ (exMc5.data ++ (exMc6.data ++ (exMc7.data ++ (exMc8.data ++ (seg3.data ++ (chgc1.data ++ (chgc2.data ++ (chgc3.data ++ (chgc4.data ++ (chgc5.data ++ (seg4.data ++ (T.data ++ seg5.data)))))))))))))))))))))) safeC_exOc2, cntC_exOc2, h21]
  have h23 : countOcc hChanges.data (exOc1.data ++ (exOc2.data ++ (exOc3.data ++ (exOc4.data ++ (exOc5.data ++ (exOc6.data ++ (exOc7.data ++ (seg2.data ++ (exMc1.data ++ (exMc2.data ++ (exMc3.data ++ (exMc4.data ++ (exMc5.data ++ (exMc6.data ++ (exMc7.data ++ (exMc8.data ++ (seg3.data ++ (chgc1.data ++ (chgc2.data ++ (chgc3.data ++ (chgc4.data ++ (chgc5.data ++ (seg4.data ++ (T.data ++ seg5.data)))))))))))))))))))))))) = 0 := by
    rw [countOcc_append_of_leftSafe hChanges.data exOc1.data (exOc2.data ++ (exOc3.data ++ (exOc4.data ++ (exOc5.data ++ (exOc6.data ++ (exOc7.data ++ (seg2.data ++ (exMc1.data ++ (exMc2.data ++ (exMc3.data ++ (exMc4.data ++ (exMc5.data ++ (exMc6.data ++ (exMc7.data ++ (exMc8.data ++ (seg3.data ++ (chgc1.data ++ (chgc2.data ++ (chgc3.data ++ (chgc4.data ++ (chgc5.data ++ (seg4.data ++ (T.data ++ seg5.data))))))))))))))))))))))) safeC_exOc1, cntC_exOc1, h22]
  have h24 : countOcc hChanges.data (seg1.data ++ (exOc1.data ++ (exOc2.data ++ (exOc3.data ++ (exOc4.data ++ (exOc5.data ++ (exOc6.data ++ (exOc7.data ++ (seg2.data ++ (exMc1.data ++ (exMc2.data ++ (exMc3.data ++ (exMc4.data ++ (exMc5.data ++ (exMc6.data ++ (exMc7.data ++ (exMc8.data ++ (seg3.data ++ (chgc1.data ++ (chgc2.data ++ (chgc3.data ++ (chgc4.data ++ (chgc5.data ++ (seg4.data ++ (T.data ++ seg5.data))))))))))))))))))))))))) = 0 := by
    rw [countOcc_append_of_leftSafe hChanges.data seg1.data (exOc1.data ++ (exOc2.data ++ (exOc3.data ++ (exOc4.data ++ (exOc5.data ++ (exOc6.data ++ (exOc7.data ++ (seg2.data ++ (exMc1.data ++ (exMc2.data ++ (exMc3.data ++ (exMc4.data ++ (exMc5.data ++ (exMc6.data ++ (exMc7.data ++ (exMc8.data ++ (seg3.data ++ (chgc1.data ++ (chgc2.data ++ (chgc3.data ++ (chgc4.data ++ (chgc5.data ++ (seg4.data ++ (T.data ++ seg5.data)))))))))))))))))))))))) safeC_seg1, cntC_seg1, h23]
  exact h24

/-- C10: for every document text that does not itself contain the
`ORIGINAL VERSION:-` heading or a `CHANGES` heading, the built user prompt
contains `ORIGINAL VERSION:-` at exactly two positions, contains `CHANGES`
nowhere, and decomposes so that the `MODIFIED VERSION:-` section sits
between the two `ORIGINAL VERSION:-` headings (the second of which
introduces the example changelog). -/
theorem user_prompt_heading_structure (T : String)
    (hTO : countOcc hOriginal.data T.data = 0)
    (hTC : countOcc hChanges.data T.data = 0) :
    countOcc hOriginal.data (build_user_prompt ex_original_text ex_modified_text changes_text T).data = 2
    ∧ countOcc hChanges.data (build_user_prompt ex_original_text ex_modified_text changes_text T).data = 0
    ∧ ∃ A B₁ B₂ C : List Char,
        (build_user_prompt ex_original_text ex_modified_text changes_text T).data =
          A ++ hOriginal.data ++ B₁ ++ hModified.data ++ B₂ ++ hOriginal.data ++ C := by
  refine ⟨countOcc_user_prompt_hO T hTO, countOcc_user_prompt_hC T hTC, ?_⟩
  refine ⟨seg1a.data,
    seg1b.data ++ ex_original_text.data ++ seg2a.data,
    seg2b.data ++ ex_modified_text.data ++ seg3a.data,
    seg3b.data ++ changes_text.data ++ seg4.data ++ T.data ++ seg5.data, ?_⟩
  have h1 : seg1 = seg1a ++ (hOriginal ++ seg1b) := by decide
  have h2 : seg2 = seg2a ++ (hModified ++ seg2b) := by decide
  have h3 : seg3 = seg3a ++ (hOriginal ++ seg3b) := by decide
  rw [build_user_prompt, h1, h2, h3]
  simp [String.data_append, List.append_assoc]

/-- witness for C10 at a concrete heading-free document text -/
theorem user_prompt_heading_structure_witness :
    countOcc hOriginal.data ("Board of Trustees" : String).data = 0
    ∧ countOcc hChanges.data ("Board of Trustees" : String).data = 0
    ∧ countOcc hOriginal.data
        (build_user_prompt ex_original_text ex_modified_text changes_text
          "Board of Trustees").data = 2 :=
  ⟨by decide, by decide,
   (user_prompt_heading_structure "Board of Trustees" (by decide) (by decide)).1⟩

end ResBot
